import Mathlib

/-!
Verification development for the oura block-mapper core: the data model
(model.rs), the per-era converters (mapper/map.rs, mapper/babbage.rs), the
batch collectors (mapper/collect.rs) and the crawl / event-emission engine.

Byte sequences are modelled as lists of naturals (each intended < 256);
machine-integer truncation is modelled with an explicit modulus where the
source casts (the `as u32` cast on transaction size).  Externally supplied
collaborators (the pallas address decoder/renderer, hash computation and the
time provider) are modelled as explicit inputs: hash values that pallas
computes from raw bytes are carried as precomputed fields, and the fallible
address-bytes-to-string renderer is a function field of the environment.
-/

namespace Oura

/-! ### Hex rendering (hex::encode) and a decoder used to state round-trips -/

def hexDigitChar (n : Nat) : Char :=
  if n < 10 then Char.ofNat (48 + n) else Char.ofNat (87 + n)

def hexCharVal (c : Char) : Option Nat :=
  let n := c.toNat
  if 48 ≤ n ∧ n ≤ 57 then some (n - 48)
  else if 97 ≤ n ∧ n ≤ 102 then some (n - 87)
  else none

def hexEncodeChars (bs : List Nat) : List Char :=
  bs.flatMap (fun b => [hexDigitChar (b / 16), hexDigitChar (b % 16)])

/-- Model of `hex::encode`: lowercase hexadecimal, two digits per byte. -/
def hexEncode (bs : List Nat) : String :=
  String.mk (hexEncodeChars bs)

def hexDecodeChars : List Char → Option (List Nat)
  | [] => some []
  | c1 :: c2 :: rest =>
    match hexCharVal c1, hexCharVal c2, hexDecodeChars rest with
    | some hi, some lo, some bs => some ((16 * hi + lo) :: bs)
    | _, _, _ => none
  | [_] => none

def hexDecode (s : String) : Option (List Nat) :=
  hexDecodeChars s.data

/-- Model of `str::strip_prefix`: `some` of the remainder when `p` is a
leading part of `s`, `none` otherwise. -/
def stripPfx (p s : String) : Option String :=
  if p.isPrefixOf s then some (s.drop p.length) else none

/-! ### A minimal model of serde_json values

`serde_json::Value` objects are backed by a `BTreeMap` (default feature set),
so an object built from a Rust `HashMap` ends up ordered by key; `objInsert`
models one `BTreeMap` insertion (overwriting an equal key). -/

inductive Json where
  | num (n : Int)
  | str (s : String)
  | arr (xs : List Json)
  | obj (fields : List (String × Json))

def objInsert (k : String) (v : Json) : List (String × Json) → List (String × Json)
  | [] => [(k, v)]
  | (k', v') :: rest =>
    match compare k k' with
    | .lt => (k, v) :: (k', v') :: rest
    | .eq => (k, v) :: rest
    | .gt => (k', v') :: objInsert k v rest

def objOfList (entries : List (String × Json)) : List (String × Json) :=
  entries.foldl (fun acc p => objInsert p.1 p.2 acc) []

/-! ### Error plumbing

Leaf converters return `Except`; the babbage transaction/block converters are
modelled in `RResult`, which adds a `panicked` outcome for the `.unwrap()`
call sites in the source. -/

abbrev Err := String

inductive RResult (α : Type) where
  | ok (a : α)
  | err (e : Err)
  | panicked

def RResult.bind : RResult α → (α → RResult β) → RResult β
  | .ok a, f => f a
  | .err e, _ => .err e
  | .panicked, _ => .panicked

instance : Monad RResult where
  pure := RResult.ok
  bind := RResult.bind

/-- Models the `?` operator: a `Result` error propagates unchanged. -/
def liftE : Except Err α → RResult α
  | .ok a => .ok a
  | .error e => .err e

/-- Models `Result::unwrap()`: an error panics instead of propagating. -/
def unwrapE : Except Err α → RResult α
  | .ok a => .ok a
  | .error _ => .panicked

inductive RStatus where
  | ok
  | err (e : Err)
  | panicked
deriving DecidableEq, Repr

def RResult.status : RResult α → RStatus
  | .ok _ => .ok
  | .err e => .err e
  | .panicked => .panicked

def RResult.errOf : RResult α → Option Err
  | .err e => some e
  | _ => none

def RResult.isPanicked : RResult α → Bool
  | .panicked => true
  | _ => false

def Except.errOf : Except Err α → Option Err
  | .error e => some e
  | _ => none

/-- Models `.collect::<Result<Vec<_>, _>>()`: the first failing element aborts
the whole collection. -/
def collectE (f : α → Except Err β) : List α → Except Err (List β)
  | [] => .ok []
  | x :: xs => do
    let y ← f x
    let ys ← collectE f xs
    .ok (y :: ys)

/-- `collect` over an enumerated iterator producing `RResult` elements. -/
def collectIdxR (f : Nat → α → RResult β) : Nat → List α → RResult (List β)
  | _, [] => .ok []
  | i, x :: xs => do
    let y ← f i x
    let ys ← collectIdxR f (i + 1) xs
    .ok (y :: ys)

/-! ### Decoded ledger structures (pallas inputs)

Shapes follow the pallas types the mapper consumes.  `KeepRaw` carries the
original encoding of the wrapped section together with the hash that the
decoding collaborator computes from those bytes (`OriginalHash`). -/

namespace Ledger

structure KeepRaw (α : Type) where
  value : α
  raw_cbor : List Nat
  original_hash : List Nat

structure TransactionInput where
  transaction_id : List Nat
  index : Nat

/-- `KeyValuePairs<PolicyId, KeyValuePairs<AssetName, γ>>`, order-preserving. -/
abbrev Multiasset (γ : Type) := List (List Nat × List (List Nat × γ))

inductive Value where
  | coin (amount : Nat)
  | multiasset (amount : Nat) (policies : Multiasset Nat)

inductive Metadatum where
  | int (x : Int)
  | bytes (x : List Nat)
  | text (x : String)
  | array (xs : List Metadatum)
  | map (ps : List (Metadatum × Metadatum))

/-- A plutus datum, with the canonical-JSON rendering the external
`ToCanonicalJson` collaborator produces for it. -/
structure PlutusData where
  json : Json

/-- A native script, with the externally computed script hash and the JSON
disclosure produced by the external `ToCanonicalJson` collaborator. -/
structure NativeScript where
  computed_hash : List Nat
  json : Json

/-- A plutus script: raw bytes plus the externally computed script hash. -/
structure PlutusScript where
  bytes : List Nat
  computed_hash : List Nat

structure PostAlonzoAuxiliaryData where
  metadata : Option (List (Nat × Metadatum))
  native_scripts : Option (List NativeScript)
  plutus_scripts : Option (List PlutusScript)

inductive AuxiliaryData where
  | postAlonzo (data : PostAlonzoAuxiliaryData)
  | shelley (data : List (Nat × Metadatum))
  | shelleyMa (transaction_metadata : List (Nat × Metadatum))
      (auxiliary_scripts : Option (List NativeScript))

inductive MintedDatumOption where
  | hash (h : List Nat)
  | data (d : KeepRaw PlutusData)

inductive Script where
  | plutusV1Script (s : PlutusScript)
  | plutusV2Script (s : PlutusScript)
  | plutusV3Script (s : PlutusScript)
  | nativeScript (s : NativeScript)

structure ScriptRef where
  script : Script

inductive StakeCredential where
  | addrKeyhash (h : List Nat)
  | scripthash (h : List Nat)

inductive DRep where
  | key (h : List Nat)
  | script (h : List Nat)
  | abstain
  | noConfidence

structure Anchor where
  url : String
  data_hash : List Nat

structure RationalNumber where
  numerator : Nat
  denominator : Nat

structure PoolMetadata where
  url : String
  hash : List Nat

inductive Relay where
  | singleHostAddr (port : Option Nat) (ipv4 : Option (List Nat)) (ipv6 : Option (List Nat))
  | singleHostName (port : Option Nat) (host : String)
  | multiHostName (host : String)

inductive InstantaneousRewardSource where
  | reserves
  | treasury

inductive InstantaneousRewardTarget where
  | stakeCredentials (creds : List (StakeCredential × Int))
  | otherAccountingPot (v : Nat)

structure MoveInstantaneousReward where
  source : InstantaneousRewardSource
  target : InstantaneousRewardTarget

inductive Certificate where
  | stakeRegistration (credential : StakeCredential)
  | stakeDeregistration (credential : StakeCredential)
  | stakeDelegation (credential : StakeCredential) (pool : List Nat)
  | poolRegistration (operator : List Nat) (vrf_keyhash : List Nat) (pledge : Nat) (cost : Nat)
      (margin : RationalNumber) (reward_account : List Nat) (pool_owners : List (List Nat))
      (relays : List Relay) (pool_metadata : Option PoolMetadata)
  | poolRetirement (pool : List Nat) (epoch : Nat)
  | genesisKeyDelegation (genesis_hash : List Nat) (genesis_delegate_hash : List Nat)
      (vrf_key_hash : List Nat)
  | moveInstantaneousRewardsCert (move_ : MoveInstantaneousReward)
  | reg (credential : StakeCredential) (coin : Nat)
  | unReg (credential : StakeCredential) (coin : Nat)
  | voteDeleg (credential : StakeCredential) (drep : DRep)
  | stakeVoteDeleg (credential : StakeCredential) (pool : List Nat) (drep : DRep)
  | stakeRegDeleg (credential : StakeCredential) (pool : List Nat) (coin : Nat)
  | voteRegDeleg (credential : StakeCredential) (drep : DRep) (coin : Nat)
  | stakeVoteRegDeleg (credential : StakeCredential) (pool : List Nat) (drep : DRep) (coin : Nat)
  | authCommitteeHot (cold : StakeCredential) (hot : StakeCredential)
  | resignCommitteeCold (cold : StakeCredential) (anchor : Option Anchor)
  | regDRepCert (credential : StakeCredential) (coin : Nat) (anchor : Option Anchor)
  | unRegDRepCert (credential : StakeCredential) (coin : Nat)
  | updateDRepCert (credential : StakeCredential) (anchor : Option Anchor)

structure VKeyWitness where
  vkey : List Nat
  signature : List Nat

inductive RedeemerTag where
  | spend
  | mint
  | cert
  | reward
  | voting
  | proposing

structure ExUnits where
  mem : Nat
  steps : Nat

structure Redeemer where
  tag : RedeemerTag
  index : Nat
  data : PlutusData
  ex_units : ExUnits

inductive NetworkId where
  | one
  | two

inductive NonceVariant where
  | neutralNonce
  | nonce

structure Nonce where
  variant : NonceVariant
  hash : Option (List Nat)

structure UnitInterval where
  numerator : Nat
  denominator : Nat

structure PositiveInterval where
  numerator : Nat
  denominator : Nat

structure ExUnitPrices where
  mem_price : PositiveInterval
  step_price : PositiveInterval

/-- Alonzo-family script language tag (only PlutusV1 exists in this era). -/
inductive Language where
  | plutusV1

/-- Alonzo `CostMdls`: key-value pairs from language to coefficient list. -/
abbrev CostMdls := List (Language × List Int)

/-- Babbage `CostMdls`: one optional coefficient list per language version. -/
structure CostMdlsB where
  plutus_v1 : Option (List Int)
  plutus_v2 : Option (List Int)

inductive LanguageB where
  | plutusV1
  | plutusV2

structure ProtocolParamUpdate where
  minfee_a : Option Nat
  minfee_b : Option Nat
  max_block_body_size : Option Nat
  max_transaction_size : Option Nat
  max_block_header_size : Option Nat
  key_deposit : Option Nat
  pool_deposit : Option Nat
  maximum_epoch : Option Nat
  desired_number_of_stake_pools : Option Nat
  pool_pledge_influence : Option RationalNumber
  expansion_rate : Option UnitInterval
  treasury_growth_rate : Option UnitInterval
  decentralization_constant : Option UnitInterval
  extra_entropy : Option Nonce
  protocol_version : Option (Nat × Nat)
  min_pool_cost : Option Nat
  ada_per_utxo_byte : Option Nat
  cost_models_for_script_languages : Option CostMdls
  execution_costs : Option ExUnitPrices
  max_tx_ex_units : Option ExUnits
  max_block_ex_units : Option ExUnits
  max_value_size : Option Nat
  collateral_percentage : Option Nat
  max_collateral_inputs : Option Nat

structure ProtocolParamUpdateB where
  minfee_a : Option Nat
  minfee_b : Option Nat
  max_block_body_size : Option Nat
  max_transaction_size : Option Nat
  max_block_header_size : Option Nat
  key_deposit : Option Nat
  pool_deposit : Option Nat
  maximum_epoch : Option Nat
  desired_number_of_stake_pools : Option Nat
  pool_pledge_influence : Option RationalNumber
  expansion_rate : Option UnitInterval
  treasury_growth_rate : Option UnitInterval
  protocol_version : Option (Nat × Nat)
  min_pool_cost : Option Nat
  ada_per_utxo_byte : Option Nat
  cost_models_for_script_languages : Option CostMdlsB
  execution_costs : Option ExUnitPrices
  max_tx_ex_units : Option ExUnits
  max_block_ex_units : Option ExUnits
  max_value_size : Option Nat
  collateral_percentage : Option Nat
  max_collateral_inputs : Option Nat

structure Update where
  proposed_protocol_parameter_updates : List (List Nat × ProtocolParamUpdate)
  epoch : Nat

structure UpdateB where
  proposed_protocol_parameter_updates : List (List Nat × ProtocolParamUpdateB)
  epoch : Nat

/-- Alonzo-family transaction output (no inline data, no inlined script). -/
structure LegacyOutput where
  address : List Nat
  amount : Value
  datum_hash : Option (List Nat)

/-- Babbage post-alonzo transaction output. -/
structure PostAlonzoOutput where
  address : List Nat
  value : Value
  datum_option : Option MintedDatumOption
  script_ref : Option ScriptRef

inductive MintedTransactionOutput where
  | legacy (o : LegacyOutput)
  | postAlonzo (o : PostAlonzoOutput)

/-- Alonzo-family transaction body (the fields the mapper reads). -/
structure TransactionBody where
  inputs : List TransactionInput
  outputs : List LegacyOutput
  fee : Nat
  ttl : Option Nat
  validity_interval_start : Option Nat
  network_id : Option NetworkId
  mint : Option (Multiasset Int)
  certificates : Option (List Certificate)
  update : Option Update
  required_signers : Option (List (List Nat))
  withdrawals : Option (List (List Nat × Nat))

/-- Babbage transaction body (the fields the mapper reads). -/
structure TransactionBodyB where
  inputs : List TransactionInput
  outputs : List MintedTransactionOutput
  fee : Nat
  ttl : Option Nat
  validity_interval_start : Option Nat
  network_id : Option NetworkId
  mint : Option (Multiasset Int)
  certificates : Option (List Certificate)
  collateral : Option (List TransactionInput)
  collateral_return : Option MintedTransactionOutput
  update : Option UpdateB
  required_signers : Option (List (List Nat))
  withdrawals : Option (List (List Nat × Nat))

/-- Alonzo-family witness set. -/
structure WitnessSet where
  vkeywitness : Option (List VKeyWitness)
  native_script : Option (List NativeScript)
  plutus_script : Option (List PlutusScript)
  redeemer : Option (List Redeemer)
  plutus_data : Option (List (KeepRaw PlutusData))

/-- Babbage witness set. -/
structure WitnessSetB where
  vkeywitness : Option (List VKeyWitness)
  native_script : Option (List NativeScript)
  plutus_v1_script : Option (List PlutusScript)
  plutus_v2_script : Option (List PlutusScript)
  redeemer : Option (List Redeemer)
  plutus_data : Option (List (KeepRaw PlutusData))

structure HeaderBody where
  slot : Nat
  block_number : Nat
  prev_hash : Option (List Nat)
  issuer_vkey : List Nat
  vrf_vkey : List Nat
  block_body_size : Nat

structure Header where
  header_body : HeaderBody

/-- Alonzo-family block as the mapper consumes it. -/
structure MintedBlock where
  header : Header
  transaction_bodies : List (KeepRaw TransactionBody)
  transaction_witness_sets : List (KeepRaw WitnessSet)
  auxiliary_data_set : List (Nat × KeepRaw AuxiliaryData)

/-- Babbage block as the mapper consumes it. -/
structure MintedBlockB where
  header : Header
  transaction_bodies : List (KeepRaw TransactionBodyB)
  transaction_witness_sets : List (KeepRaw WitnessSetB)
  auxiliary_data_set : List (Nat × KeepRaw AuxiliaryData)

end Ledger

/-! ### Unified record schema (model.rs) -/

inductive Era where
  | undefined
  | unknown
  | byron
  | shelley
  | allegra
  | mary
  | alonzo
  | babbage
deriving DecidableEq, Repr

inductive MetadatumRendition where
  | mapJson (x : Json)
  | arrayJson (x : Json)
  | intScalar (x : Int)
  | textScalar (x : String)
  | bytesHex (x : String)

structure MetadataRecord where
  label : String
  content : MetadatumRendition

structure CIP25AssetRecord where
  version : String
  policy : String
  asset : String
  name : Option String
  image : Option String
  media_type : Option String
  description : Option String
  raw_json : Json

structure CIP15AssetRecord where
  voting_key : String
  stake_pub : String
  reward_address : String
  nonce : Int
  raw_json : Json

structure TxInputRecord where
  tx_id : String
  index : Nat
deriving DecidableEq, Repr

structure OutputAssetRecord where
  policy : String
  asset : String
  asset_ascii : Option String
  amount : Nat
deriving DecidableEq, Repr

structure PlutusDatumRecord where
  datum_hash : String
  plutus_data : Json

inductive ScriptRefRecord where
  | plutusV1 (script_hash : String) (script_hex : String)
  | plutusV2 (script_hash : String) (script_hex : String)
  | plutusV3 (script_hash : String) (script_hex : String)
  | nativeScript (policy_id : String) (script_json : Json)

structure TxOutputRecord where
  address : String
  amount : Nat
  assets : Option (List OutputAssetRecord)
  datum_hash : Option String
  inline_datum : Option PlutusDatumRecord
  inlined_script : Option ScriptRefRecord

structure MintRecord where
  policy : String
  asset : String
  quantity : Int
deriving DecidableEq, Repr

structure WithdrawalRecord where
  reward_account : String
  coin : Nat
deriving DecidableEq, Repr

inductive StakeCredential where
  | addrKeyhash (s : String)
  | scripthash (s : String)
deriving DecidableEq, Repr

inductive DRep where
  | keyHash (s : String)
  | scriptHash (s : String)
  | abstain
  | noConfidence
deriving DecidableEq, Repr

structure AnchorRecord where
  url : String
  data_hash : String
deriving DecidableEq, Repr

structure RationalNumberRecord where
  numerator : Nat
  denominator : Nat
deriving DecidableEq, Repr

structure StakeRegistrationRecord where
  credential : StakeCredential
deriving DecidableEq, Repr

structure StakeDeregistrationRecord where
  credential : StakeCredential
deriving DecidableEq, Repr

structure StakeDelegationRecord where
  credential : StakeCredential
  pool_hash : String
deriving DecidableEq, Repr

structure PoolRegistrationRecord where
  operator : String
  vrf_keyhash : String
  pledge : Nat
  cost : Nat
  margin : RationalNumberRecord
  reward_account : String
  pool_owners : List String
  relays : List String
  pool_metadata : Option String
  pool_metadata_hash : Option String
deriving DecidableEq, Repr

structure PoolRetirementRecord where
  pool : String
  epoch : Nat
deriving DecidableEq, Repr

structure GenesisKeyDelegationRecord where
  genesis_hash : String
  genesis_delegate_hash : String
  vrf_key_hash : String
deriving DecidableEq, Repr

structure MoveInstantaneousRewardsCertRecord where
  from_reserves : Bool
  from_treasury : Bool
  to_stake_credentials : Option (List (StakeCredential × Int))
  to_other_pot : Option Nat
deriving DecidableEq, Repr

structure RegCertRecord where
  credential : StakeCredential
  coin : Nat
deriving DecidableEq, Repr

structure UnRegCertRecord where
  credential : StakeCredential
  coin : Nat
deriving DecidableEq, Repr

structure VoteDelegCertRecord where
  credential : StakeCredential
  drep : DRep
deriving DecidableEq, Repr

structure StakeVoteDelegCertRecord where
  credential : StakeCredential
  pool_keyhash : String
  drep : DRep
deriving DecidableEq, Repr

structure StakeRegDelegCertRecord where
  credential : StakeCredential
  pool_keyhash : String
  coin : Nat
deriving DecidableEq, Repr

structure VoteRegDelegCertRecord where
  credential : StakeCredential
  drep : DRep
  coin : Nat
deriving DecidableEq, Repr

structure StakeVoteRegDelegCertRecord where
  credential : StakeCredential
  pool_keyhash : String
  drep : DRep
  coin : Nat
deriving DecidableEq, Repr

structure AuthCommitteeHotCertRecord where
  committee_cold_credential : StakeCredential
  committee_hot_credential : StakeCredential
deriving DecidableEq, Repr

structure ResignCommitteeColdCertRecord where
  committee_cold_credential : StakeCredential
  anchor : Option AnchorRecord
deriving DecidableEq, Repr

structure RegDRepCertRecord where
  credential : StakeCredential
  coin : Nat
  anchor : Option AnchorRecord
deriving DecidableEq, Repr

structure UnRegDRepCertRecord where
  credential : StakeCredential
  coin : Nat
deriving DecidableEq, Repr

structure UpdateDRepCertRecord where
  credential : StakeCredential
  anchor : Option AnchorRecord
deriving DecidableEq, Repr

inductive CertificateRecord where
  | stakeRegistration (r : StakeRegistrationRecord)
  | stakeDeregistration (r : StakeDeregistrationRecord)
  | stakeDelegation (r : StakeDelegationRecord)
  | poolRegistration (r : PoolRegistrationRecord)
  | poolRetirement (r : PoolRetirementRecord)
  | genesisKeyDelegation (r : GenesisKeyDelegationRecord)
  | moveInstantaneousRewardsCert (r : MoveInstantaneousRewardsCertRecord)
  | regCert (r : RegCertRecord)
  | unRegCert (r : UnRegCertRecord)
  | voteDeleg (r : VoteDelegCertRecord)
  | stakeVoteDeleg (r : StakeVoteDelegCertRecord)
  | stakeRegDeleg (r : StakeRegDelegCertRecord)
  | voteRegDeleg (r : VoteRegDelegCertRecord)
  | stakeVoteRegDeleg (r : StakeVoteRegDelegCertRecord)
  | authCommitteeHot (r : AuthCommitteeHotCertRecord)
  | resignCommitteeCold (r : ResignCommitteeColdCertRecord)
  | regDRepCert (r : RegDRepCertRecord)
  | unRegDRepCert (r : UnRegDRepCertRecord)
  | updateDRepCert (r : UpdateDRepCertRecord)
deriving DecidableEq, Repr

structure UnitIntervalRecord where
  numerator : Nat
  denominator : Nat
deriving DecidableEq, Repr

structure PositiveIntervalRecord where
  numerator : Nat
  denominator : Nat
deriving DecidableEq, Repr

structure ExUnitsRecord where
  mem : Nat
  steps : Nat
deriving DecidableEq, Repr

inductive NonceVariantRecord where
  | neutralNonce
  | nonce
deriving DecidableEq, Repr

structure NonceRecord where
  variant : NonceVariantRecord
  hash : Option String
deriving DecidableEq, Repr

inductive LanguageVersionRecord where
  | plutusV1
  | plutusV2
deriving DecidableEq, Repr

structure CostModelRecord where
  coefficients : List Int
deriving DecidableEq, Repr

/-- `CostModelsRecord` wraps a `HashMap`; modelled as a key-value list built by
`hashInsert` (overwrite on equal key). -/
structure CostModelsRecord where
  entries : List (LanguageVersionRecord × CostModelRecord)
deriving DecidableEq, Repr

structure VKeyWitnessRecord where
  vkey_hex : String
  signature_hex : String
deriving DecidableEq, Repr

structure RequiredSignerRecord where
  hex : String
deriving DecidableEq, Repr

structure NativeWitnessRecord where
  policy_id : String
  script_json : Json

structure PlutusWitnessRecord where
  script_hash : String
  script_hex : String
deriving DecidableEq, Repr

structure PlutusRedeemerRecord where
  purpose : String
  ex_units_mem : Nat
  ex_units_steps : Nat
  input_idx : Nat
  plutus_data : Json

structure ProtocolParamUpdateRecord where
  minfee_a : Option Nat
  minfee_b : Option Nat
  max_block_body_size : Option Nat
  max_transaction_size : Option Nat
  max_block_header_size : Option Nat
  key_deposit : Option Nat
  pool_deposit : Option Nat
  maximum_epoch : Option Nat
  desired_number_of_stake_pools : Option Nat
  pool_pledge_influence : Option RationalNumberRecord
  expansion_rate : Option UnitIntervalRecord
  treasury_growth_rate : Option UnitIntervalRecord
  decentralization_constant : Option UnitIntervalRecord
  extra_entropy : Option NonceRecord
  protocol_version : Option (Nat × Nat)
  min_pool_cost : Option Nat
  ada_per_utxo_byte : Option Nat
  cost_models_for_script_languages : Option CostModelsRecord
  execution_costs : Option Json
  max_tx_ex_units : Option ExUnitsRecord
  max_block_ex_units : Option ExUnitsRecord
  max_value_size : Option Nat
  collateral_percentage : Option Nat
  max_collateral_inputs : Option Nat

/-- `UpdateRecord` wraps a `HashMap<String, ProtocolParamUpdateRecord>`;
modelled as a key-value list built by `hashInsert`. -/
structure UpdateRecord where
  proposed_protocol_parameter_updates : List (String × ProtocolParamUpdateRecord)
  epoch : Nat

structure TransactionRecord where
  hash : String
  fee : Nat
  ttl : Option Nat
  validity_interval_start : Option Nat
  network_id : Option Nat
  input_count : Nat
  collateral_input_count : Nat
  has_collateral_output : Bool
  output_count : Nat
  mint_count : Nat
  certificate_count : Nat
  total_output : Nat
  required_signers_count : Nat
  required_signers : Option (List RequiredSignerRecord)
  update : Option UpdateRecord
  metadata : Option (List MetadataRecord)
  inputs : Option (List TxInputRecord)
  outputs : Option (List TxOutputRecord)
  collateral_inputs : Option (List TxInputRecord)
  collateral_output : Option TxOutputRecord
  certs : Option (List CertificateRecord)
  mint : Option (List MintRecord)
  vkey_witnesses : Option (List VKeyWitnessRecord)
  native_witnesses : Option (List NativeWitnessRecord)
  plutus_witnesses : Option (List PlutusWitnessRecord)
  plutus_redeemers : Option (List PlutusRedeemerRecord)
  plutus_data : Option (List PlutusDatumRecord)
  withdrawals : Option (List WithdrawalRecord)
  size : Nat

/-- `Default::default()` for `TransactionRecord` (derived `Default`). -/
def TransactionRecord.empty : TransactionRecord where
  hash := ""
  fee := 0
  ttl := none
  validity_interval_start := none
  network_id := none
  input_count := 0
  collateral_input_count := 0
  has_collateral_output := false
  output_count := 0
  mint_count := 0
  certificate_count := 0
  total_output := 0
  required_signers_count := 0
  required_signers := none
  update := none
  metadata := none
  inputs := none
  outputs := none
  collateral_inputs := none
  collateral_output := none
  certs := none
  mint := none
  vkey_witnesses := none
  native_witnesses := none
  plutus_witnesses := none
  plutus_redeemers := none
  plutus_data := none
  withdrawals := none
  size := 0

structure EventContext where
  block_hash : Option String
  block_number : Option Nat
  slot : Option Nat
  timestamp : Option Nat
  tx_idx : Option Nat
  tx_hash : Option String
  input_idx : Option Nat
  output_idx : Option Nat
  output_address : Option String
  certificate_idx : Option Nat
deriving DecidableEq, Repr

/-- `EventContext::default()`: every coordinate absent. -/
def emptyContext : EventContext where
  block_hash := none
  block_number := none
  slot := none
  timestamp := none
  tx_idx := none
  tx_hash := none
  input_idx := none
  output_idx := none
  output_address := none
  certificate_idx := none

structure BlockRecord where
  era : Era
  epoch : Option Nat
  epoch_slot : Option Nat
  body_size : Nat
  issuer_vkey : String
  vrf_vkey : String
  tx_count : Nat
  slot : Nat
  hash : String
  number : Nat
  previous_hash : String
  cbor_hex : Option String
  transactions : Option (List TransactionRecord)

inductive EventData where
  | Block (r : BlockRecord)
  | BlockEnd (r : BlockRecord)
  | Transaction (r : TransactionRecord)
  | TransactionEnd (r : TransactionRecord)
  | TxInput (r : TxInputRecord)
  | TxOutput (r : TxOutputRecord)
  | OutputAsset (r : OutputAssetRecord)
  | Metadata (r : MetadataRecord)
  | VKeyWitness (r : VKeyWitnessRecord)
  | NativeWitness (r : NativeWitnessRecord)
  | PlutusWitness (r : PlutusWitnessRecord)
  | PlutusRedeemer (r : PlutusRedeemerRecord)
  | PlutusDatum (r : PlutusDatumRecord)
  | CIP25Asset (r : CIP25AssetRecord)
  | CIP15Asset (r : CIP15AssetRecord)
  | Mint (r : MintRecord)
  | Collateral (tx_id : String) (index : Nat)
  | NativeScript (policy_id : String) (script : Json)
  | PlutusScript (hash : String) (data : String)
  | StakeRegistration (r : StakeRegistrationRecord)
  | StakeDeregistration (r : StakeDeregistrationRecord)
  | StakeDelegation (r : StakeDelegationRecord)
  | PoolRegistration (r : PoolRegistrationRecord)
  | PoolRetirement (r : PoolRetirementRecord)
  | GenesisKeyDelegation (r : GenesisKeyDelegationRecord)
  | MoveInstantaneousRewardsCert (r : MoveInstantaneousRewardsCertRecord)
  | RegCert (r : RegCertRecord)
  | UnRegCert (r : UnRegCertRecord)
  | VoteDeleg (r : VoteDelegCertRecord)
  | StakeVoteDeleg (r : StakeVoteDelegCertRecord)
  | StakeRegDeleg (r : StakeRegDelegCertRecord)
  | VoteRegDeleg (r : VoteRegDelegCertRecord)
  | StakeVoteRegDeleg (r : StakeVoteRegDelegCertRecord)
  | AuthCommitteeHot (r : AuthCommitteeHotCertRecord)
  | ResignCommitteeCold (r : ResignCommitteeColdCertRecord)
  | RegDRepCert (r : RegDRepCertRecord)
  | UnRegDRepCert (r : UnRegDRepCertRecord)
  | UpdateDRepCert (r : UpdateDRepCertRecord)
  | RollBack (block_slot : Nat) (block_hash : String)

structure Event where
  context : EventContext
  data : EventData
  fingerprint : Option String

/-- One `HashMap::insert` (overwrite on equal key); record-level maps carry
their entries as lists since equality of Rust `HashMap`s ignores order. -/
def hashInsert [DecidableEq κ] : List (κ × β) → κ → β → List (κ × β)
  | [], k, v => [(k, v)]
  | (k', v') :: rest, k, v =>
    if k = k' then (k, v) :: rest else (k', v') :: hashInsert rest k v

/-! ### The event writer and its collaborators

The `EventWriter` struct, its `Config`, `append` and `child_writer` live in
mapper/mod.rs, which is not among the sources; they are modelled from the
spec (sections 4.3, 4.4 and 6). -/

/-- Modelled from the spec: the independent detail-inclusion switches of
section 4.4, read by the converters and the crawl. -/
structure Config where
  include_transaction_details : Bool
  include_block_details : Bool
  include_block_cbor : Bool
  include_transaction_end_events : Bool
  include_block_end_events : Bool

/-- Modelled from the spec: the optional slot-to-time collaborator
(`utils.time`), supplying epoch coordinates and wall-clock timestamps. -/
structure TimeProviderM where
  absolute_slot_to_relative : Nat → Nat × Nat
  slot_to_wallclock : Nat → Nat

/-- Modelled from the spec: external collaborators of section 6 — the
fallible address-bytes-to-string renderer (pallas `Address::from_bytes`
composed with its display rendering) and the optional time provider. -/
structure Env where
  addressFromBytes : List Nat → Except Err String
  time : Option TimeProviderM

/-- Modelled from the spec: the event writer holds the current context, the
detail switches and the external collaborators. -/
structure EventWriter where
  context : EventContext
  config : Config
  env : Env

/-- Modelled from the spec: context derivation (section 4.3) — the child
context takes each override coordinate where present and inherits every
other coordinate from the parent unchanged (the merge derive on
`EventContext` with the overwrite-none strategy). -/
def mergeContext (extra parent : EventContext) : EventContext where
  block_hash := extra.block_hash.orElse fun _ => parent.block_hash
  block_number := extra.block_number.orElse fun _ => parent.block_number
  slot := extra.slot.orElse fun _ => parent.slot
  timestamp := extra.timestamp.orElse fun _ => parent.timestamp
  tx_idx := extra.tx_idx.orElse fun _ => parent.tx_idx
  tx_hash := extra.tx_hash.orElse fun _ => parent.tx_hash
  input_idx := extra.input_idx.orElse fun _ => parent.input_idx
  output_idx := extra.output_idx.orElse fun _ => parent.output_idx
  output_address := extra.output_address.orElse fun _ => parent.output_address
  certificate_idx := extra.certificate_idx.orElse fun _ => parent.certificate_idx

/-- Modelled from the spec: derive a child writer by merging the parent's
context under the given overrides. -/
def child_writer (w : EventWriter) (extra : EventContext) : EventWriter :=
  { w with context := mergeContext extra w.context }

/-- Modelled from the spec: `append` wraps one data payload with the
writer's current context; the fingerprint is assigned by an external
collaborator, never by this engine. -/
def mkEvent (w : EventWriter) (data : EventData) : Event :=
  { context := w.context, data := data, fingerprint := none }

/-- Modelled from the spec: `compute_timestamp` asks the optional time
collaborator for the wall-clock time of a slot. -/
def compute_timestamp (w : EventWriter) (slot : Nat) : Option Nat :=
  w.env.time.map fun t => t.slot_to_wallclock slot

/-! ### mapper/map.rs — era-agnostic leaf converters -/

def ip_string_from_bytes (bytes : List Nat) : String :=
  toString (bytes.getD 0 0) ++ "." ++ toString (bytes.getD 1 0) ++ "." ++
    toString (bytes.getD 2 0) ++ "." ++ toString (bytes.getD 3 0)

def relay_to_string : Ledger.Relay → String
  | .singleHostAddr port ipv4 ipv6 =>
    let ip : String :=
      match ipv6, ipv4 with
      | none, none => ""
      | _, some x => ip_string_from_bytes x
      | some x, _ => ip_string_from_bytes x
    match port with
    | some port => ip ++ ":" ++ toString port
    | none => ip
  | .singleHostName port host =>
    match port with
    | some port => host ++ ":" ++ toString port
    | none => host
  | .multiHostName host => host

/-- Rendering of a metadatum appearing in key position: integers as decimal,
byte strings as lowercase hex, text verbatim, anything else as the empty
string (`Default::default()` for `String`) with only a diagnostic. -/
def metadatum_to_string_key : Ledger.Metadatum → String
  | .int x => toString x
  | .bytes x => hexEncode x
  | .text x => x
  | _ => ""

def get_tx_output_coin_value : Ledger.Value → Nat
  | .coin x => x
  | .multiasset x _ => x

mutual

def to_metadatum_json_map_entry (pair : Ledger.Metadatum × Ledger.Metadatum) :
    Except Err (String × Json) := do
  let value ← to_metadatum_json pair.2
  .ok (metadatum_to_string_key pair.1, value)

def to_metadatum_json : Ledger.Metadatum → Except Err Json
  | .int x => .ok (.num x)
  | .bytes x => .ok (.str (hexEncode x))
  | .text x => .ok (.str x)
  | .array xs => do
    let items ← to_metadatum_json_list xs
    .ok (.arr items)
  | .map ps => do
    let entries ← to_metadatum_json_entries ps
    .ok (.obj (objOfList entries))

def to_metadatum_json_list : List Ledger.Metadatum → Except Err (List Json)
  | [] => .ok []
  | x :: xs => do
    let y ← to_metadatum_json x
    let ys ← to_metadatum_json_list xs
    .ok (y :: ys)

def to_metadatum_json_entries :
    List (Ledger.Metadatum × Ledger.Metadatum) → Except Err (List (String × Json))
  | [] => .ok []
  | p :: ps => do
    let e ← to_metadatum_json_map_entry p
    let es ← to_metadatum_json_entries ps
    .ok (e :: es)

end

def to_metadata_record (label : Nat) (value : Ledger.Metadatum) :
    Except Err MetadataRecord := do
  let content ← match value with
    | .int x => .ok (MetadatumRendition.intScalar x)
    | .bytes x => .ok (MetadatumRendition.bytesHex (hexEncode x))
    | .text x => .ok (MetadatumRendition.textScalar x)
    | .array _ => do
      let j ← to_metadatum_json value
      .ok (MetadatumRendition.arrayJson j)
    | .map _ => do
      let j ← to_metadatum_json value
      .ok (MetadatumRendition.mapJson j)
  .ok { label := toString label, content := content }

def StakeCredential.ofLedger : Ledger.StakeCredential → StakeCredential
  | .addrKeyhash x => .addrKeyhash (hexEncode x)
  | .scripthash x => .scripthash (hexEncode x)

def DRep.ofLedger : Ledger.DRep → DRep
  | .key x => .keyHash (hexEncode x)
  | .script x => .scriptHash (hexEncode x)
  | .abstain => .abstain
  | .noConfidence => .noConfidence

def AnchorRecord.ofLedger (other : Ledger.Anchor) : AnchorRecord where
  url := other.url
  data_hash := hexEncode other.data_hash

def to_option_anchor_record : Option Ledger.Anchor → Option AnchorRecord
  | some anchor => some (AnchorRecord.ofLedger anchor)
  | none => none

def to_transaction_input_record (input : Ledger.TransactionInput) : TxInputRecord where
  tx_id := hexEncode input.transaction_id
  index := input.index

def to_transaction_output_asset_record (policy : List Nat) (asset : List Nat)
    (amount : Nat) : OutputAssetRecord where
  policy := hexEncode policy
  asset := hexEncode asset
  asset_ascii := (String.fromUTF8? (ByteArray.mk ((asset.map (fun b => UInt8.ofNat b)).toArray)))
  amount := amount

def to_mint_record (policy : List Nat) (asset : List Nat) (quantity : Int) : MintRecord where
  policy := hexEncode policy
  asset := hexEncode asset
  quantity := quantity

def collect_asset_records (amount : Ledger.Value) : List OutputAssetRecord :=
  match amount with
  | .coin _ => []
  | .multiasset _ policies =>
    policies.flatMap fun p =>
      p.2.map fun a => to_transaction_output_asset_record p.1 a.1 a.2

def collect_mint_records (mint : Ledger.Multiasset Int) : List MintRecord :=
  mint.flatMap fun p =>
    p.2.map fun a => to_mint_record p.1 a.1 a.2

def to_plutus_datum_record (datum : Ledger.KeepRaw Ledger.PlutusData) :
    Except Err PlutusDatumRecord :=
  .ok { datum_hash := hexEncode datum.original_hash, plutus_data := datum.value.json }

def to_aux_native_script_event (script : Ledger.NativeScript) : EventData :=
  .NativeScript (hexEncode script.computed_hash) script.json

def to_aux_plutus_script_event (script : Ledger.PlutusScript) : EventData :=
  .PlutusScript (hexEncode script.computed_hash) (hexEncode script.bytes)

def to_plutus_redeemer_record (redeemer : Ledger.Redeemer) :
    Except Err PlutusRedeemerRecord :=
  .ok {
    purpose :=
      match redeemer.tag with
      | .spend => "spend"
      | .mint => "mint"
      | .cert => "cert"
      | .reward => "reward"
      | .voting => "voting"
      | .proposing => "proposing"
    ex_units_mem := redeemer.ex_units.mem
    ex_units_steps := redeemer.ex_units.steps
    input_idx := redeemer.index
    plutus_data := redeemer.data.json }

def to_plutus_v1_witness_record (script : Ledger.PlutusScript) :
    Except Err PlutusWitnessRecord :=
  .ok { script_hash := hexEncode script.computed_hash, script_hex := hexEncode script.bytes }

def to_plutus_v2_witness_record (script : Ledger.PlutusScript) :
    Except Err PlutusWitnessRecord :=
  .ok { script_hash := hexEncode script.computed_hash, script_hex := hexEncode script.bytes }

def to_native_witness_record (script : Ledger.NativeScript) :
    Except Err NativeWitnessRecord :=
  .ok { policy_id := hexEncode script.computed_hash, script_json := script.json }

def to_script_ref_record (script_ref : Ledger.ScriptRef) :
    Except Err ScriptRefRecord :=
  match script_ref.script with
  | .plutusV1Script script =>
    .ok (.plutusV1 (hexEncode script.computed_hash) (hexEncode script.bytes))
  | .plutusV2Script script =>
    .ok (.plutusV2 (hexEncode script.computed_hash) (hexEncode script.bytes))
  | .plutusV3Script script =>
    .ok (.plutusV3 (hexEncode script.computed_hash) (hexEncode script.bytes))
  | .nativeScript script =>
    .ok (.nativeScript (hexEncode script.computed_hash) script.json)

def to_vkey_witness_record (witness : Ledger.VKeyWitness) :
    Except Err VKeyWitnessRecord :=
  .ok { vkey_hex := hexEncode witness.vkey, signature_hex := hexEncode witness.signature }

def to_legacy_output_record (w : EventWriter) (output : Ledger.LegacyOutput) :
    Except Err TxOutputRecord := do
  let address ← w.env.addressFromBytes output.address
  .ok {
    address := address
    amount := get_tx_output_coin_value output.amount
    assets := some (collect_asset_records output.amount)
    datum_hash := output.datum_hash.map (fun hash => hexEncode hash)
    inline_datum := none
    inlined_script := none }

def to_post_alonzo_output_record (w : EventWriter) (output : Ledger.PostAlonzoOutput) :
    Except Err TxOutputRecord := do
  let address ← w.env.addressFromBytes output.address
  let inline_datum ← match output.datum_option with
    | some (.data x) => do
      let r ← to_plutus_datum_record x
      .ok (some r)
    | _ => .ok none
  let inlined_script ← match output.script_ref with
    | some script => do
      let r ← to_script_ref_record script
      .ok (some r)
    | none => .ok none
  .ok {
    address := address
    amount := get_tx_output_coin_value output.value
    assets := some (collect_asset_records output.value)
    datum_hash :=
      match output.datum_option with
      | some (.hash x) => some (hexEncode x)
      | some (.data x) => some (hexEncode x.original_hash)
      | none => none
    inline_datum := inline_datum
    inlined_script := inlined_script }

def to_rational_number_record (rational : Ledger.RationalNumber) : RationalNumberRecord where
  numerator := rational.numerator
  denominator := rational.denominator

def to_rational_number_record_option :
    Option Ledger.RationalNumber → Option RationalNumberRecord
  | some rational => some (to_rational_number_record rational)
  | none => none

def to_unit_interval_record : Option Ledger.UnitInterval → Option UnitIntervalRecord
  | some interval => some { numerator := interval.numerator, denominator := interval.denominator }
  | none => none

def to_positive_interval_record (interval : Ledger.PositiveInterval) : PositiveIntervalRecord where
  numerator := interval.numerator
  denominator := interval.denominator

def to_nonce_variant_record : Ledger.NonceVariant → NonceVariantRecord
  | .neutralNonce => .neutralNonce
  | .nonce => .nonce

def to_nonce_record : Option Ledger.Nonce → Option NonceRecord
  | some nonce =>
    some { variant := to_nonce_variant_record nonce.variant,
           hash := nonce.hash.map (fun x => hexEncode x) }
  | none => none

def to_language_version_record : Ledger.Language → LanguageVersionRecord
  | .plutusV1 => .plutusV1

def to_cost_model_record (cost_model : List Int) : CostModelRecord :=
  { coefficients := cost_model }

def to_cost_models_record : Option Ledger.CostMdls → Option CostModelsRecord
  | some cost_models =>
    let step := fun acc (pair : Ledger.Language × List Int) =>
      hashInsert acc (to_language_version_record pair.1) (to_cost_model_record pair.2)
    some { entries := cost_models.foldl step [] }
  | none => none

def to_ex_units_record : Option Ledger.ExUnits → Option ExUnitsRecord
  | some ex_units => some { mem := ex_units.mem, steps := ex_units.steps }
  | none => none

/-- serde serialization of `ExUnitPrices` used for the `json!` call on
`execution_costs` (declaration field order, rationals as records). -/
def exUnitPricesJson (p : Ledger.ExUnitPrices) : Json :=
  .obj [("mem_price", .arr [.num p.mem_price.numerator, .num p.mem_price.denominator]),
        ("step_price", .arr [.num p.step_price.numerator, .num p.step_price.denominator])]

def to_certificate_record (certificate : Ledger.Certificate) : CertificateRecord :=
  match certificate with
  | .stakeRegistration credential =>
    .stakeRegistration { credential := StakeCredential.ofLedger credential }
  | .stakeDeregistration credential =>
    .stakeDeregistration { credential := StakeCredential.ofLedger credential }
  | .stakeDelegation credential pool =>
    .stakeDelegation { credential := StakeCredential.ofLedger credential,
                       pool_hash := hexEncode pool }
  | .poolRegistration operator vrf_keyhash pledge cost margin reward_account pool_owners
      relays pool_metadata =>
    .poolRegistration {
      operator := hexEncode operator
      vrf_keyhash := hexEncode vrf_keyhash
      pledge := pledge
      cost := cost
      margin := to_rational_number_record margin
      reward_account := hexEncode reward_account
      pool_owners := pool_owners.map (fun p => hexEncode p)
      relays := relays.map relay_to_string
      pool_metadata := pool_metadata.map (fun m => m.url)
      pool_metadata_hash := pool_metadata.map (fun m => hexEncode m.hash) }
  | .poolRetirement pool epoch =>
    .poolRetirement { pool := hexEncode pool, epoch := epoch }
  | .moveInstantaneousRewardsCert move_ =>
    .moveInstantaneousRewardsCert {
      from_reserves := (match move_.source with | .reserves => true | _ => false)
      from_treasury := (match move_.source with | .treasury => true | _ => false)
      to_stake_credentials :=
        match move_.target with
        | .stakeCredentials creds =>
          some (creds.map (fun p => (StakeCredential.ofLedger p.1, p.2)))
        | _ => none
      to_other_pot :=
        match move_.target with
        | .otherAccountingPot x => some x
        | _ => none }
  | .genesisKeyDelegation genesis_hash genesis_delegate_hash vrf_key_hash =>
    .genesisKeyDelegation {
      genesis_hash := hexEncode genesis_hash
      genesis_delegate_hash := hexEncode genesis_delegate_hash
      vrf_key_hash := hexEncode vrf_key_hash }
  | .reg credential coin =>
    .regCert { credential := StakeCredential.ofLedger credential, coin := coin }
  | .unReg credential coin =>
    .unRegCert { credential := StakeCredential.ofLedger credential, coin := coin }
  | .voteDeleg credential drep =>
    .voteDeleg { credential := StakeCredential.ofLedger credential,
                 drep := DRep.ofLedger drep }
  | .stakeVoteDeleg credential pool drep =>
    .stakeVoteDeleg { credential := StakeCredential.ofLedger credential,
                      pool_keyhash := hexEncode pool, drep := DRep.ofLedger drep }
  | .stakeRegDeleg credential pool coin =>
    .stakeRegDeleg { credential := StakeCredential.ofLedger credential,
                     pool_keyhash := hexEncode pool, coin := coin }
  | .voteRegDeleg credential drep coin =>
    .voteRegDeleg { credential := StakeCredential.ofLedger credential,
                    drep := DRep.ofLedger drep, coin := coin }
  | .stakeVoteRegDeleg credential pool drep coin =>
    .stakeVoteRegDeleg { credential := StakeCredential.ofLedger credential,
                         pool_keyhash := hexEncode pool, drep := DRep.ofLedger drep,
                         coin := coin }
  | .authCommitteeHot cold hot =>
    .authCommitteeHot { committee_cold_credential := StakeCredential.ofLedger cold,
                        committee_hot_credential := StakeCredential.ofLedger hot }
  | .resignCommitteeCold cold anchor =>
    .resignCommitteeCold { committee_cold_credential := StakeCredential.ofLedger cold,
                           anchor := to_option_anchor_record anchor }
  | .regDRepCert drep coin anchor =>
    .regDRepCert { credential := StakeCredential.ofLedger drep, coin := coin,
                   anchor := to_option_anchor_record anchor }
  | .unRegDRepCert drep coin =>
    .unRegDRepCert { credential := StakeCredential.ofLedger drep, coin := coin }
  | .updateDRepCert credential anchor =>
    .updateDRepCert { credential := StakeCredential.ofLedger credential,
                      anchor := to_option_anchor_record anchor }

def to_certificate_event (certificate : Ledger.Certificate) : EventData :=
  match to_certificate_record certificate with
  | .stakeRegistration r => .StakeRegistration r
  | .stakeDeregistration r => .StakeDeregistration r
  | .stakeDelegation r => .StakeDelegation r
  | .poolRegistration r => .PoolRegistration r
  | .poolRetirement r => .PoolRetirement r
  | .moveInstantaneousRewardsCert r => .MoveInstantaneousRewardsCert r
  | .genesisKeyDelegation r => .GenesisKeyDelegation r
  | .regCert r => .RegCert r
  | .unRegCert r => .UnRegCert r
  | .voteDeleg r => .VoteDeleg r
  | .stakeVoteDeleg r => .StakeVoteDeleg r
  | .stakeRegDeleg r => .StakeRegDeleg r
  | .voteRegDeleg r => .VoteRegDeleg r
  | .stakeVoteRegDeleg r => .StakeVoteRegDeleg r
  | .authCommitteeHot r => .AuthCommitteeHot r
  | .resignCommitteeCold r => .ResignCommitteeCold r
  | .regDRepCert r => .RegDRepCert r
  | .unRegDRepCert r => .UnRegDRepCert r
  | .updateDRepCert r => .UpdateDRepCert r

def to_collateral_event (collateral : Ledger.TransactionInput) : EventData :=
  .Collateral (hexEncode collateral.transaction_id) collateral.index

/-- Transaction size: original body bytes plus the auxiliary-data section's
original bytes (2 when absent) plus the witness-set section's original bytes
(1 when absent). -/
def to_tx_size (body : Ledger.KeepRaw Ledger.TransactionBody)
    (aux_data : Option (Ledger.KeepRaw Ledger.AuxiliaryData))
    (witness_set : Option (Ledger.KeepRaw Ledger.WitnessSet)) : Nat :=
  body.raw_cbor.length
    + (aux_data.map (fun ax => ax.raw_cbor.length)).getD 2
    + (witness_set.map (fun ws => ws.raw_cbor.length)).getD 1

/-! ### mapper/collect.rs — order-preserving batch collectors -/

def collect_input_records (source : List Ledger.TransactionInput) : List TxInputRecord :=
  source.map to_transaction_input_record

def collect_legacy_output_records (w : EventWriter) (source : List Ledger.LegacyOutput) :
    Except Err (List TxOutputRecord) :=
  collectE (to_legacy_output_record w) source

def collect_post_alonzo_output_records (w : EventWriter)
    (source : List Ledger.PostAlonzoOutput) : Except Err (List TxOutputRecord) :=
  collectE (to_post_alonzo_output_record w) source

def to_any_output_record (w : EventWriter) :
    Ledger.MintedTransactionOutput → Except Err TxOutputRecord
  | .legacy x => to_legacy_output_record w x
  | .postAlonzo x => to_post_alonzo_output_record w x

def collect_any_output_records (w : EventWriter)
    (source : List Ledger.MintedTransactionOutput) : Except Err (List TxOutputRecord) :=
  collectE (to_any_output_record w) source

def collect_certificate_records (certificates : List Ledger.Certificate) :
    List CertificateRecord :=
  certificates.map to_certificate_record

def collect_withdrawal_records (withdrawls : List (List Nat × Nat)) :
    List WithdrawalRecord :=
  withdrawls.map fun p =>
    { reward_account :=
        let hex := hexEncode p.1
        ((stripPfx "e1" hex).map (fun x => x)).getD hex
      coin := p.2 }

def collect_metadata_records (aux_data : Ledger.AuxiliaryData) :
    Except Err (List MetadataRecord) :=
  let metadata : Option (List (Nat × Ledger.Metadatum)) :=
    match aux_data with
    | .postAlonzo data => data.metadata
    | .shelley data => some data
    | .shelleyMa transaction_metadata _ => some transaction_metadata
  match metadata with
  | some x => collectE (fun p => to_metadata_record p.1 p.2) x
  | none => .ok []

def collect_vkey_witness_records (witness_set : Option (List Ledger.VKeyWitness)) :
    Except Err (List VKeyWitnessRecord) :=
  match witness_set with
  | some all => collectE to_vkey_witness_record all
  | none => .ok []

def collect_vkey_witness_records_babbage (witness_set : Option (List Ledger.VKeyWitness)) :
    Except Err (List VKeyWitnessRecord) :=
  match witness_set with
  | some all => collectE to_vkey_witness_record all
  | none => .ok []

def collect_native_witness_records (witness_set : Option (List Ledger.NativeScript)) :
    Except Err (List NativeWitnessRecord) :=
  match witness_set with
  | some all => collectE to_native_witness_record all
  | none => .ok []

def collect_native_witness_records_babbage
    (witness_set : Option (List Ledger.NativeScript)) :
    Except Err (List NativeWitnessRecord) :=
  match witness_set with
  | some all => collectE to_native_witness_record all
  | none => .ok []

def collect_plutus_v1_witness_records (witness_set : Option (List Ledger.PlutusScript)) :
    Except Err (List PlutusWitnessRecord) :=
  match witness_set with
  | some all => collectE to_plutus_v1_witness_record all
  | none => .ok []

def collect_plutus_v1_witness_records_babbage
    (witness_set : Option (List Ledger.PlutusScript)) :
    Except Err (List PlutusWitnessRecord) :=
  match witness_set with
  | some all => collectE to_plutus_v1_witness_record all
  | none => .ok []

def collect_plutus_v2_witness_records (witness_set : Option (List Ledger.PlutusScript)) :
    Except Err (List PlutusWitnessRecord) :=
  match witness_set with
  | some all => collectE to_plutus_v2_witness_record all
  | none => .ok []

def collect_plutus_redeemer_records (witness_set : Option (List Ledger.Redeemer)) :
    Except Err (List PlutusRedeemerRecord) :=
  match witness_set with
  | some all => collectE to_plutus_redeemer_record all
  | none => .ok []

def collect_plutus_redeemer_records_2 (witness_set : Option (List Ledger.Redeemer)) :
    Except Err (List PlutusRedeemerRecord) :=
  match witness_set with
  | some all => collectE to_plutus_redeemer_record all
  | none => .ok []

def collect_witness_plutus_datum_records
    (witness_set : Option (List (Ledger.KeepRaw Ledger.PlutusData))) :
    Except Err (List PlutusDatumRecord) :=
  match witness_set with
  | some all => collectE to_plutus_datum_record all
  | none => .ok []

def collect_witness_plutus_datum_records_babbage
    (witness_set : Option (List (Ledger.KeepRaw Ledger.PlutusData))) :
    Except Err (List PlutusDatumRecord) :=
  match witness_set with
  | some all => collectE to_plutus_datum_record all
  | none => .ok []

def collect_required_signers_records (req_signers : List (List Nat)) :
    Except Err (List RequiredSignerRecord) :=
  .ok (req_signers.map (fun req_sign => { hex := hexEncode req_sign }))

/-! ### Protocol parameter update records (map.rs and babbage.rs) -/

def to_protocol_update_record (update : Ledger.ProtocolParamUpdate) :
    ProtocolParamUpdateRecord where
  minfee_a := update.minfee_a
  minfee_b := update.minfee_b
  max_block_body_size := update.max_block_body_size
  max_transaction_size := update.max_transaction_size
  max_block_header_size := update.max_block_header_size
  key_deposit := update.key_deposit
  pool_deposit := update.pool_deposit
  maximum_epoch := update.maximum_epoch
  desired_number_of_stake_pools := update.desired_number_of_stake_pools
  pool_pledge_influence := to_rational_number_record_option update.pool_pledge_influence
  expansion_rate := to_unit_interval_record update.expansion_rate
  treasury_growth_rate := to_unit_interval_record update.treasury_growth_rate
  decentralization_constant := to_unit_interval_record update.decentralization_constant
  extra_entropy := to_nonce_record update.extra_entropy
  protocol_version := update.protocol_version
  min_pool_cost := update.min_pool_cost
  ada_per_utxo_byte := update.ada_per_utxo_byte
  cost_models_for_script_languages :=
    to_cost_models_record update.cost_models_for_script_languages
  execution_costs := update.execution_costs.map exUnitPricesJson
  max_tx_ex_units := to_ex_units_record update.max_tx_ex_units
  max_block_ex_units := to_ex_units_record update.max_block_ex_units
  max_value_size := update.max_value_size
  collateral_percentage := update.collateral_percentage
  max_collateral_inputs := update.max_collateral_inputs

def to_update_record (update : Ledger.Update) : UpdateRecord where
  proposed_protocol_parameter_updates :=
    update.proposed_protocol_parameter_updates.foldl
      (fun acc p => hashInsert acc (hexEncode p.1) (to_protocol_update_record p.2)) []
  epoch := update.epoch

def to_babbage_cost_models_record : Option Ledger.CostMdlsB → Option CostModelsRecord
  | some cost_models =>
    let e0 : List (LanguageVersionRecord × CostModelRecord) := []
    let e1 := match cost_models.plutus_v1 with
      | some cost_model_v1 =>
        hashInsert e0 LanguageVersionRecord.plutusV1 { coefficients := cost_model_v1 }
      | none => e0
    let e2 := match cost_models.plutus_v2 with
      | some cost_model_v2 =>
        hashInsert e1 LanguageVersionRecord.plutusV2 { coefficients := cost_model_v2 }
      | none => e1
    some { entries := e2 }
  | none => none

def to_babbage_language_version_record : Ledger.LanguageB → LanguageVersionRecord
  | .plutusV1 => .plutusV1
  | .plutusV2 => .plutusV2

def to_babbage_protocol_update_record (update : Ledger.ProtocolParamUpdateB) :
    ProtocolParamUpdateRecord where
  minfee_a := update.minfee_a
  minfee_b := update.minfee_b
  max_block_body_size := update.max_block_body_size
  max_transaction_size := update.max_transaction_size
  max_block_header_size := update.max_block_header_size
  key_deposit := update.key_deposit
  pool_deposit := update.pool_deposit
  maximum_epoch := update.maximum_epoch
  desired_number_of_stake_pools := update.desired_number_of_stake_pools
  pool_pledge_influence := to_rational_number_record_option update.pool_pledge_influence
  expansion_rate := to_unit_interval_record update.expansion_rate
  treasury_growth_rate := to_unit_interval_record update.treasury_growth_rate
  decentralization_constant := none
  extra_entropy := none
  protocol_version := update.protocol_version
  min_pool_cost := update.min_pool_cost
  ada_per_utxo_byte := update.ada_per_utxo_byte
  cost_models_for_script_languages :=
    to_babbage_cost_models_record update.cost_models_for_script_languages
  execution_costs := update.execution_costs.map exUnitPricesJson
  max_tx_ex_units := to_ex_units_record update.max_tx_ex_units
  max_block_ex_units := to_ex_units_record update.max_block_ex_units
  max_value_size := update.max_value_size
  collateral_percentage := update.collateral_percentage
  max_collateral_inputs := update.max_collateral_inputs

def to_babbage_update_record (update : Ledger.UpdateB) : UpdateRecord where
  proposed_protocol_parameter_updates :=
    update.proposed_protocol_parameter_updates.foldl
      (fun acc p => hashInsert acc (hexEncode p.1) (to_babbage_protocol_update_record p.2)) []
  epoch := update.epoch

/-! ### Whole-transaction and whole-block converters

The source functions perform a linear sequence of field updates on a
freshly defaulted record; each update block is a named stage here so that
proofs about one field stay small. -/

def network_id_value : Ledger.NetworkId → Nat
  | .one => 1
  | .two => 2

/-- Stage: mint count (always) and mint list (under the details switch). -/
def txRecordWithMint (cfg : Config) (record : TransactionRecord) :
    Option (Ledger.Multiasset Int) → TransactionRecord
  | some mint =>
    let mints := collect_mint_records mint
    let r := { record with mint_count := mints.length }
    if cfg.include_transaction_details then { r with mint := some mints } else r
  | none => record

/-- Stage: certificate count (always) and list (under the details switch). -/
def txRecordWithCerts (cfg : Config) (record : TransactionRecord) :
    Option (List Ledger.Certificate) → TransactionRecord
  | some certs =>
    let certs := collect_certificate_records certs
    let r := { record with certificate_count := certs.length }
    if cfg.include_transaction_details then { r with certs := some certs } else r
  | none => record

/-- Stage: alonzo-family protocol-update proposal (details only). -/
def txRecordWithUpdateA (cfg : Config) (record : TransactionRecord) :
    Option Ledger.Update → TransactionRecord
  | some update =>
    if cfg.include_transaction_details then
      { record with update := some (to_update_record update) }
    else record
  | none => record

/-- Stage: babbage protocol-update proposal (details only). -/
def txRecordWithUpdateB (cfg : Config) (record : TransactionRecord) :
    Option Ledger.UpdateB → TransactionRecord
  | some update =>
    if cfg.include_transaction_details then
      { record with update := some (to_babbage_update_record update) }
    else record
  | none => record

/-- Stage: required-signer count (always) and list (details only). -/
def txRecordWithReqSigners (cfg : Config) (record : TransactionRecord) :
    Option (List (List Nat)) → Except Err TransactionRecord
  | some req_signers => do
    let req ← collect_required_signers_records req_signers
    let r := { record with required_signers_count := req.length }
    .ok (if cfg.include_transaction_details then
           { r with required_signers := some req }
         else r)
  | none => .ok record

/-- Stage (details only): metadata records from the auxiliary data. -/
def txRecordWithMetadata (record : TransactionRecord) :
    Option (Ledger.KeepRaw Ledger.AuxiliaryData) → Except Err TransactionRecord
  | some aux => do
    let m ← collect_metadata_records aux.value
    .ok { record with metadata := some m }
  | none => .ok { record with metadata := none }

/-- Stage (details only): the four-plus-one witness lists, alonzo family. -/
def txRecordWithWitnessesA (record : TransactionRecord) :
    Option (Ledger.KeepRaw Ledger.WitnessSet) → Except Err TransactionRecord
  | some witnesses => do
    let vk ← collect_vkey_witness_records witnesses.value.vkeywitness
    let nw ← collect_native_witness_records witnesses.value.native_script
    let pw ← collect_plutus_v1_witness_records witnesses.value.plutus_script
    let pr ← collect_plutus_redeemer_records witnesses.value.redeemer
    let pd ← collect_witness_plutus_datum_records witnesses.value.plutus_data
    .ok { record with
      vkey_witnesses := some vk
      native_witnesses := some nw
      plutus_witnesses := some pw
      plutus_redeemers := some pr
      plutus_data := some pd }
  | none => .ok record

/-- Stage (details only): the witness lists, babbage family. -/
def txRecordWithWitnessesB (record : TransactionRecord) :
    Option (Ledger.KeepRaw Ledger.WitnessSetB) → Except Err TransactionRecord
  | some witnesses => do
    let vk ← collect_vkey_witness_records_babbage witnesses.value.vkeywitness
    let nw ← collect_native_witness_records_babbage witnesses.value.native_script
    let pw ← collect_plutus_v1_witness_records_babbage witnesses.value.plutus_v1_script
    let pr ← collect_plutus_redeemer_records_2 witnesses.value.redeemer
    let pd ← collect_witness_plutus_datum_records_babbage witnesses.value.plutus_data
    .ok { record with
      vkey_witnesses := some vk
      native_witnesses := some nw
      plutus_witnesses := some pw
      plutus_redeemers := some pr
      plutus_data := some pd }
  | none => .ok record

/-- Stage (details only): withdrawal records. -/
def txRecordWithWithdrawals (record : TransactionRecord) :
    Option (List (List Nat × Nat)) → TransactionRecord
  | some wd => { record with withdrawals := some (collect_withdrawal_records wd) }
  | none => record

/-- Stage (details only): the collateral-return output.  The source converts
it with `.unwrap()` inside an `Option::map` closure, so a conversion failure
panics instead of propagating. -/
def txRecordWithCollateralReturn (w : EventWriter) (record : TransactionRecord) :
    Option Ledger.MintedTransactionOutput → RResult TransactionRecord
  | some output => do
    let converted ← unwrapE (to_any_output_record w output)
    pure { record with collateral_output := some converted }
  | none => pure record

def to_transaction_record (w : EventWriter) (body : Ledger.KeepRaw Ledger.TransactionBody)
    (tx_hash : String) (aux_data : Option (Ledger.KeepRaw Ledger.AuxiliaryData))
    (witness_set : Option (Ledger.KeepRaw Ledger.WitnessSet)) :
    Except Err TransactionRecord := do
  let record := { TransactionRecord.empty with
    hash := tx_hash
    size := to_tx_size body aux_data witness_set % (2 ^ 32)
    fee := body.value.fee
    ttl := body.value.ttl
    validity_interval_start := body.value.validity_interval_start
    network_id := body.value.network_id.map network_id_value }
  let outputs ← collect_legacy_output_records w body.value.outputs
  let record := { record with
    output_count := outputs.length
    total_output := (outputs.map (fun (o : TxOutputRecord) => o.amount)).sum }
  let inputs := collect_input_records body.value.inputs
  let record := { record with input_count := inputs.length }
  let record := txRecordWithMint w.config record body.value.mint
  let record := txRecordWithCerts w.config record body.value.certificates
  let record := txRecordWithUpdateA w.config record body.value.update
  let record ← txRecordWithReqSigners w.config record body.value.required_signers
  if w.config.include_transaction_details then do
    let record := { record with outputs := some outputs, inputs := some inputs }
    let record ← txRecordWithMetadata record aux_data
    let record ← txRecordWithWitnessesA record witness_set
    let record := txRecordWithWithdrawals record body.value.withdrawals
    .ok record
  else
    .ok record

/-- Sparse auxiliary-data lookup for an alonzo-family block:
`auxiliary_data_set.iter().find(|(k, _)| *k == idx)`. -/
def auxForA (block : Ledger.MintedBlock) (idx : Nat) :
    Option (Ledger.KeepRaw Ledger.AuxiliaryData) :=
  (block.auxiliary_data_set.find? (fun p => p.1 == idx)).map (fun p => p.2)

def collectIdxE (f : Nat → α → Except Err β) : Nat → List α → Except Err (List β)
  | _, [] => .ok []
  | i, x :: xs => do
    let y ← f i x
    let ys ← collectIdxE f (i + 1) xs
    .ok (y :: ys)

def collect_shelley_tx_records (w : EventWriter) (block : Ledger.MintedBlock) :
    Except Err (List TransactionRecord) :=
  collectIdxE
    (fun idx tx =>
      to_transaction_record w tx (hexEncode tx.original_hash) (auxForA block idx)
        (block.transaction_witness_sets.get? idx))
    0 block.transaction_bodies

def to_block_record (w : EventWriter) (source : Ledger.MintedBlock) (hash : List Nat)
    (cbor : List Nat) (era : Era) : Except Err BlockRecord := do
  let relative_epoch :=
    w.env.time.map fun time =>
      time.absolute_slot_to_relative source.header.header_body.slot
  let record : BlockRecord := {
    era := era
    body_size := source.header.header_body.block_body_size
    issuer_vkey := hexEncode source.header.header_body.issuer_vkey
    vrf_vkey := hexEncode source.header.header_body.vrf_vkey
    tx_count := source.transaction_bodies.length
    hash := hexEncode hash
    number := source.header.header_body.block_number
    slot := source.header.header_body.slot
    epoch := relative_epoch.map (fun p => p.1)
    epoch_slot := relative_epoch.map (fun p => p.2)
    previous_hash :=
      (source.header.header_body.prev_hash.map (fun h => hexEncode h)).getD ""
    cbor_hex := if w.config.include_block_cbor then some (hexEncode cbor) else none
    transactions := none }
  if w.config.include_block_details then do
    let txs ← collect_shelley_tx_records w source
    .ok { record with transactions := some txs }
  else
    .ok record

/-! ### Whole-transaction and whole-block converters, babbage family

These are modelled in `RResult` because the source converts the
collateral-return output with `.unwrap()` inside a closure: a conversion
failure there panics instead of propagating as a `Result` error. -/

def to_babbage_tx_size (body : Ledger.KeepRaw Ledger.TransactionBodyB)
    (aux_data : Option (Ledger.KeepRaw Ledger.AuxiliaryData))
    (witness_set : Option (Ledger.KeepRaw Ledger.WitnessSetB)) : Nat :=
  body.raw_cbor.length
    + (aux_data.map (fun ax => ax.raw_cbor.length)).getD 2
    + (witness_set.map (fun ws => ws.raw_cbor.length)).getD 1

def to_babbage_transaction_record (w : EventWriter)
    (body : Ledger.KeepRaw Ledger.TransactionBodyB) (tx_hash : String)
    (aux_data : Option (Ledger.KeepRaw Ledger.AuxiliaryData))
    (witness_set : Option (Ledger.KeepRaw Ledger.WitnessSetB)) :
    RResult TransactionRecord := do
  let record := { TransactionRecord.empty with
    hash := tx_hash
    size := to_babbage_tx_size body aux_data witness_set % (2 ^ 32)
    fee := body.value.fee
    ttl := body.value.ttl
    validity_interval_start := body.value.validity_interval_start
    network_id := body.value.network_id.map network_id_value }
  let outputs ← liftE (collect_any_output_records w body.value.outputs)
  let record := { record with
    output_count := outputs.length
    total_output := (outputs.map (fun (o : TxOutputRecord) => o.amount)).sum }
  let inputs := collect_input_records body.value.inputs
  let record := { record with input_count := inputs.length }
  let record := txRecordWithMint w.config record body.value.mint
  let record := txRecordWithCerts w.config record body.value.certificates
  let collateral_inputs := body.value.collateral
  let record := { record with
    collateral_input_count := collateral_inputs.toList.length
    has_collateral_output := body.value.collateral_return.isSome }
  let record := txRecordWithUpdateB w.config record body.value.update
  let record ← liftE (txRecordWithReqSigners w.config record body.value.required_signers)
  if w.config.include_transaction_details then do
    let record := { record with
      outputs := some outputs
      inputs := some inputs
      collateral_inputs := collateral_inputs.map collect_input_records }
    let record ← txRecordWithCollateralReturn w record body.value.collateral_return
    let record ← liftE (txRecordWithMetadata record aux_data)
    let record ← liftE (txRecordWithWitnessesB record witness_set)
    let record := txRecordWithWithdrawals record body.value.withdrawals
    pure record
  else
    pure record

/-- Sparse auxiliary-data lookup for a babbage block. -/
def auxForB (block : Ledger.MintedBlockB) (idx : Nat) :
    Option (Ledger.KeepRaw Ledger.AuxiliaryData) :=
  (block.auxiliary_data_set.find? (fun p => p.1 == idx)).map (fun p => p.2)

def collect_babbage_tx_records (w : EventWriter) (block : Ledger.MintedBlockB) :
    RResult (List TransactionRecord) :=
  collectIdxR
    (fun idx tx =>
      to_babbage_transaction_record w tx (hexEncode tx.original_hash) (auxForB block idx)
        (block.transaction_witness_sets.get? idx))
    0 block.transaction_bodies

def to_babbage_block_record (w : EventWriter) (source : Ledger.MintedBlockB)
    (hash : List Nat) (cbor : List Nat) : RResult BlockRecord := do
  let relative_epoch :=
    w.env.time.map fun time =>
      time.absolute_slot_to_relative source.header.header_body.slot
  let record : BlockRecord := {
    era := Era.babbage
    body_size := source.header.header_body.block_body_size
    issuer_vkey := hexEncode source.header.header_body.issuer_vkey
    vrf_vkey := hexEncode source.header.header_body.vrf_vkey
    tx_count := source.transaction_bodies.length
    hash := hexEncode hash
    number := source.header.header_body.block_number
    slot := source.header.header_body.slot
    epoch := relative_epoch.map (fun p => p.1)
    epoch_slot := relative_epoch.map (fun p => p.2)
    previous_hash :=
      (source.header.header_body.prev_hash.map (fun h => hexEncode h)).getD ""
    cbor_hex := if w.config.include_block_cbor then some (hexEncode cbor) else none
    transactions := none }
  if w.config.include_block_details then do
    let txs ← collect_babbage_tx_records w source
    pure { record with transactions := some txs }
  else
    pure record

/-! ### The crawl

A crawl call is modelled by the ordered list of events it sends to the
output channel, together with its outcome.  Events already emitted before a
failure are kept (they are not retracted by the engine). -/

structure Emit where
  evs : List Event
  st : RStatus

def pureE : Emit := { evs := [], st := .ok }

def emit1 (e : Event) : Emit := { evs := [e], st := .ok }

/-- Sequencing of two emission steps: the second runs only when the first
succeeded; events already emitted are kept either way. -/
def Emit.seq (a b : Emit) : Emit :=
  match a.st with
  | .ok => { evs := a.evs ++ b.evs, st := b.st }
  | .err _ => a
  | .panicked => a

/-- A fallible (`?`) computation feeding an emission step. -/
def bindEx (r : Except Err α) (f : α → Emit) : Emit :=
  match r with
  | .ok a => f a
  | .error e => { evs := [], st := .err e }

def bindR (r : RResult α) (f : α → Emit) : Emit :=
  match r with
  | .ok a => f a
  | .err e => { evs := [], st := .err e }
  | .panicked => { evs := [], st := .panicked }

/-- A `for` loop over a collection, stopping at the first failing element. -/
def emitEach (f : α → Emit) : List α → Emit
  | [] => pureE
  | x :: xs => (f x).seq (emitEach f xs)

/-- An enumerated `for` loop. -/
def emitEachIdx (f : Nat → α → Emit) : Nat → List α → Emit
  | _, [] => pureE
  | i, x :: xs => (f i x).seq (emitEachIdx f (i + 1) xs)

/-- Modelled from the spec (section 4.3c): one OutputAsset event per asset
entry of a multi-asset value, in original order. -/
def crawl_transaction_output_amount (w : EventWriter) (amount : Ledger.Value) : Emit :=
  emitEach (fun r => emit1 (mkEvent w (.OutputAsset r))) (collect_asset_records amount)

def crawl_post_alonzo_output (w : EventWriter)
    (output : Ledger.PostAlonzoOutput) : Emit :=
  bindEx (to_post_alonzo_output_record w output) fun record =>
  (emit1 (mkEvent w (.TxOutput record))).seq <|
  bindEx (w.env.addressFromBytes output.address) fun address =>
  let child := child_writer w { emptyContext with output_address := some address }
  (crawl_transaction_output_amount child output.value).seq <|
  match output.datum_option with
  | some (.data datum) =>
    bindEx (to_plutus_datum_record datum) fun record =>
      emit1 (mkEvent child (.PlutusDatum record))
  | _ => pureE

/-- Modelled from the spec (section 4.3c): a legacy output emits its
TxOutput event and then its OutputAsset children; legacy outputs never
carry inline data. -/
def crawl_legacy_output (w : EventWriter) (output : Ledger.LegacyOutput) : Emit :=
  bindEx (to_legacy_output_record w output) fun record =>
  (emit1 (mkEvent w (.TxOutput record))).seq <|
  bindEx (w.env.addressFromBytes output.address) fun address =>
  let child := child_writer w { emptyContext with output_address := some address }
  crawl_transaction_output_amount child output.amount

def crawl_babbage_transaction_output (w : EventWriter) :
    Ledger.MintedTransactionOutput → Emit
  | .legacy x => crawl_legacy_output w x
  | .postAlonzo x => crawl_post_alonzo_output w x

/-- Modelled from the spec (section 4.3b): one TxInput event per input. -/
def crawl_transaction_input (w : EventWriter) (input : Ledger.TransactionInput) : Emit :=
  emit1 (mkEvent w (.TxInput (to_transaction_input_record input)))

/-- Modelled from the spec (section 4.3d): one certificate-kind event per
certificate. -/
def crawl_certificate (w : EventWriter) (certificate : Ledger.Certificate) : Emit :=
  emit1 (mkEvent w (to_certificate_event certificate))

/-- Modelled from the spec (section 4.3e): one Collateral event per
collateral input. -/
def crawl_collateral (w : EventWriter) (collateral : Ledger.TransactionInput) : Emit :=
  emit1 (mkEvent w (to_collateral_event collateral))

/-- Modelled from the spec (section 4.3f): one Mint event per mint entry. -/
def crawl_mints (w : EventWriter) (mint : Ledger.Multiasset Int) : Emit :=
  emitEach (fun r => emit1 (mkEvent w (.Mint r))) (collect_mint_records mint)

def auxNativeScripts : Ledger.AuxiliaryData → List Ledger.NativeScript
  | .postAlonzo data => data.native_scripts.getD []
  | .shelley _ => []
  | .shelleyMa _ auxiliary_scripts => auxiliary_scripts.getD []

def auxPlutusScripts : Ledger.AuxiliaryData → List Ledger.PlutusScript
  | .postAlonzo data => data.plutus_scripts.getD []
  | _ => []

/-- Modelled from the spec (section 4.3g): when auxiliary data is present,
one Metadata event per label, then one script-disclosure event per script
embedded in the auxiliary data (native first, then plutus). -/
def crawl_auxdata (w : EventWriter) (aux_data : Ledger.AuxiliaryData) : Emit :=
  bindEx (collect_metadata_records aux_data) fun records =>
  (emitEach (fun r => emit1 (mkEvent w (.Metadata r))) records).seq <|
  (emitEach (fun s => emit1 (mkEvent w (to_aux_native_script_event s)))
      (auxNativeScripts aux_data)).seq
    (emitEach (fun s => emit1 (mkEvent w (to_aux_plutus_script_event s)))
      (auxPlutusScripts aux_data))

/-- One `if let Some(xs) = section { for x in xs { append_from(conv(x)?)? } }`
block of the witness-set walk. -/
def crawlWitList (w : EventWriter) (conv : β → Except Err γ) (mk : γ → EventData) :
    Option (List β) → Emit
  | some xs => emitEach (fun s => bindEx (conv s) fun r => emit1 (mkEvent w (mk r))) xs
  | none => pureE

def crawl_babbage_witness_set (w : EventWriter) (witness_set : Ledger.WitnessSetB) : Emit :=
  (crawlWitList w to_native_witness_record .NativeWitness witness_set.native_script).seq <|
  (crawlWitList w to_plutus_v1_witness_record .PlutusWitness
      witness_set.plutus_v1_script).seq <|
  (crawlWitList w to_plutus_redeemer_record .PlutusRedeemer witness_set.redeemer).seq
    (crawlWitList w to_plutus_datum_record .PlutusDatum witness_set.plutus_data)

/-- The `if let Some(certs)` block of the transaction walk. -/
def crawl_tx_certs (w : EventWriter) : Option (List Ledger.Certificate) → Emit
  | some certs =>
    emitEachIdx
      (fun idx cert =>
        let child := child_writer w { emptyContext with certificate_idx := some idx }
        crawl_certificate child cert)
      0 certs
  | none => pureE

/-- The `if let Some(collateral)` block of the transaction walk. -/
def crawl_tx_collateral (w : EventWriter) : Option (List Ledger.TransactionInput) → Emit
  | some collateral => emitEach (fun c => crawl_collateral w c) collateral
  | none => pureE

/-- The `if let Some(mint)` block of the transaction walk. -/
def crawl_tx_mint (w : EventWriter) : Option (Ledger.Multiasset Int) → Emit
  | some mint => crawl_mints w mint
  | none => pureE

/-- The `if let Some(aux_data)` block of the transaction walk. -/
def crawl_tx_aux (w : EventWriter) : Option (Ledger.KeepRaw Ledger.AuxiliaryData) → Emit
  | some aux => crawl_auxdata w aux.value
  | none => pureE

/-- The `if let Some(witness_set)` block of the transaction walk. -/
def crawl_tx_ws (w : EventWriter) : Option (Ledger.KeepRaw Ledger.WitnessSetB) → Emit
  | some ws => crawl_babbage_witness_set w ws.value
  | none => pureE

def crawl_babbage_transaction (w : EventWriter)
    (tx : Ledger.KeepRaw Ledger.TransactionBodyB) (tx_hash : String)
    (aux_data : Option (Ledger.KeepRaw Ledger.AuxiliaryData))
    (witness_set : Option (Ledger.KeepRaw Ledger.WitnessSetB)) : Emit :=
  bindR (to_babbage_transaction_record w tx tx_hash aux_data witness_set) fun record =>
  (emit1 (mkEvent w (.Transaction record))).seq <|
  (emitEachIdx
     (fun idx input =>
       let child := child_writer w { emptyContext with input_idx := some idx }
       crawl_transaction_input child input)
     0 tx.value.inputs).seq <|
  (emitEachIdx
     (fun idx output =>
       let child := child_writer w { emptyContext with output_idx := some idx }
       crawl_babbage_transaction_output child output)
     0 tx.value.outputs).seq <|
  (crawl_tx_certs w tx.value.certificates).seq <|
  (crawl_tx_collateral w tx.value.collateral).seq <|
  (crawl_tx_mint w tx.value.mint).seq <|
  (crawl_tx_aux w aux_data).seq <|
  (crawl_tx_ws w witness_set).seq
    (if w.config.include_transaction_end_events then
       emit1 (mkEvent w (.TransactionEnd record))
     else pureE)

/-- One iteration of the block walk's transaction loop: look up the
transaction's auxiliary data and witness set, derive the child writer
carrying tx_idx and tx_hash, and crawl the transaction. -/
def crawl_block_tx (w : EventWriter) (block : Ledger.MintedBlockB)
    (idx : Nat) (tx : Ledger.KeepRaw Ledger.TransactionBodyB) : Emit :=
  let aux_data := auxForB block idx
  let witness_set := block.transaction_witness_sets.get? idx
  let tx_hash := hexEncode tx.original_hash
  let child := child_writer w
    { emptyContext with tx_idx := some idx, tx_hash := some tx_hash }
  crawl_babbage_transaction child tx tx_hash aux_data witness_set

def crawl_babbage_block (w : EventWriter) (block : Ledger.MintedBlockB)
    (hash : List Nat) (cbor : List Nat) : Emit :=
  bindR (to_babbage_block_record w block hash cbor) fun record =>
  (emit1 (mkEvent w (.Block record))).seq <|
  (emitEachIdx (crawl_block_tx w block) 0 block.transaction_bodies).seq
    (if w.config.include_block_end_events then
       emit1 (mkEvent w (.BlockEnd record))
     else pureE)

/-! ### Event kinds and the emission order stated by the spec

`EKind` abstracts an event to the kind of its payload; the `claim…Kinds`
functions below spell out, from the block structure alone, the emission
order the spec describes.  They are written from the spec's words (section
4.3), not from the crawl code; the `datumFirst` switch selects between the
order as literally stated (a Datum child before the OutputAsset children)
and the order with the asset children first. -/

inductive CertKind where
  | stakeRegistration
  | stakeDeregistration
  | stakeDelegation
  | poolRegistration
  | poolRetirement
  | genesisKeyDelegation
  | moveInstantaneousRewardsCert
  | regCert
  | unRegCert
  | voteDeleg
  | stakeVoteDeleg
  | stakeRegDeleg
  | voteRegDeleg
  | stakeVoteRegDeleg
  | authCommitteeHot
  | resignCommitteeCold
  | regDRepCert
  | unRegDRepCert
  | updateDRepCert
deriving DecidableEq, Repr

inductive EKind where
  | block
  | blockEnd
  | transaction
  | transactionEnd
  | txInput
  | txOutput
  | outputAsset
  | metadata
  | vkeyWitness
  | nativeWitness
  | plutusWitness
  | plutusRedeemer
  | plutusDatum
  | cip25Asset
  | cip15Asset
  | mint
  | collateral
  | nativeScript
  | plutusScript
  | cert (k : CertKind)
  | rollBack
deriving DecidableEq, Repr

def EventData.kind : EventData → EKind
  | .Block _ => .block
  | .BlockEnd _ => .blockEnd
  | .Transaction _ => .transaction
  | .TransactionEnd _ => .transactionEnd
  | .TxInput _ => .txInput
  | .TxOutput _ => .txOutput
  | .OutputAsset _ => .outputAsset
  | .Metadata _ => .metadata
  | .VKeyWitness _ => .vkeyWitness
  | .NativeWitness _ => .nativeWitness
  | .PlutusWitness _ => .plutusWitness
  | .PlutusRedeemer _ => .plutusRedeemer
  | .PlutusDatum _ => .plutusDatum
  | .CIP25Asset _ => .cip25Asset
  | .CIP15Asset _ => .cip15Asset
  | .Mint _ => .mint
  | .Collateral _ _ => .collateral
  | .NativeScript _ _ => .nativeScript
  | .PlutusScript _ _ => .plutusScript
  | .StakeRegistration _ => .cert .stakeRegistration
  | .StakeDeregistration _ => .cert .stakeDeregistration
  | .StakeDelegation _ => .cert .stakeDelegation
  | .PoolRegistration _ => .cert .poolRegistration
  | .PoolRetirement _ => .cert .poolRetirement
  | .GenesisKeyDelegation _ => .cert .genesisKeyDelegation
  | .MoveInstantaneousRewardsCert _ => .cert .moveInstantaneousRewardsCert
  | .RegCert _ => .cert .regCert
  | .UnRegCert _ => .cert .unRegCert
  | .VoteDeleg _ => .cert .voteDeleg
  | .StakeVoteDeleg _ => .cert .stakeVoteDeleg
  | .StakeRegDeleg _ => .cert .stakeRegDeleg
  | .VoteRegDeleg _ => .cert .voteRegDeleg
  | .StakeVoteRegDeleg _ => .cert .stakeVoteRegDeleg
  | .AuthCommitteeHot _ => .cert .authCommitteeHot
  | .ResignCommitteeCold _ => .cert .resignCommitteeCold
  | .RegDRepCert _ => .cert .regDRepCert
  | .UnRegDRepCert _ => .cert .unRegDRepCert
  | .UpdateDRepCert _ => .cert .updateDRepCert
  | .RollBack _ _ => .rollBack

def Event.kind (e : Event) : EKind := e.data.kind

/-- The kind of certificate event a certificate gives rise to, read off the
certificate itself. -/
def claimCertKind : Ledger.Certificate → CertKind
  | .stakeRegistration _ => .stakeRegistration
  | .stakeDeregistration _ => .stakeDeregistration
  | .stakeDelegation _ _ => .stakeDelegation
  | .poolRegistration _ _ _ _ _ _ _ _ _ => .poolRegistration
  | .poolRetirement _ _ => .poolRetirement
  | .genesisKeyDelegation _ _ _ => .genesisKeyDelegation
  | .moveInstantaneousRewardsCert _ => .moveInstantaneousRewardsCert
  | .reg _ _ => .regCert
  | .unReg _ _ => .unRegCert
  | .voteDeleg _ _ => .voteDeleg
  | .stakeVoteDeleg _ _ _ => .stakeVoteDeleg
  | .stakeRegDeleg _ _ _ => .stakeRegDeleg
  | .voteRegDeleg _ _ _ => .voteRegDeleg
  | .stakeVoteRegDeleg _ _ _ _ => .stakeVoteRegDeleg
  | .authCommitteeHot _ _ => .authCommitteeHot
  | .resignCommitteeCold _ _ => .resignCommitteeCold
  | .regDRepCert _ _ _ => .regDRepCert
  | .unRegDRepCert _ _ => .unRegDRepCert
  | .updateDRepCert _ _ => .updateDRepCert

/-- Number of (policy, asset-name) entries of a value; zero for coin-only. -/
def valueAssetCount : Ledger.Value → Nat
  | .coin _ => 0
  | .multiasset _ policies => (policies.map (fun p => p.2.length)).sum

/-- Number of mint entries across all policies. -/
def mintEntryCount (m : Ledger.Multiasset Int) : Nat :=
  (m.map (fun p => p.2.length)).sum

/-- Number of metadata labels carried by an auxiliary-data section. -/
def metadataLabelCount (aux : Ledger.AuxiliaryData) : Nat :=
  match aux with
  | .postAlonzo data => (data.metadata.getD []).length
  | .shelley data => data.length
  | .shelleyMa transaction_metadata _ => transaction_metadata.length

/-- Spec order for one output: TxOutput, then its children.  With
`datumFirst` the Datum child (when the output carries inline data) comes
before the OutputAsset children, as the spec sentence lists them; without
it the asset children come first. -/
def claimOutputKinds (datumFirst : Bool) : Ledger.MintedTransactionOutput → List EKind
  | .legacy o => .txOutput :: List.replicate (valueAssetCount o.amount) .outputAsset
  | .postAlonzo o =>
    let assets := List.replicate (valueAssetCount o.value) EKind.outputAsset
    let datum : List EKind :=
      match o.datum_option with
      | some (.data _) => [.plutusDatum]
      | _ => []
    .txOutput :: (if datumFirst then datum ++ assets else assets ++ datum)

/-- Spec order for one transaction (section 4.3, steps a-i). -/
def claimTxKinds (cfg : Config) (datumFirst : Bool)
    (tx : Ledger.KeepRaw Ledger.TransactionBodyB)
    (aux_data : Option (Ledger.KeepRaw Ledger.AuxiliaryData))
    (witness_set : Option (Ledger.KeepRaw Ledger.WitnessSetB)) : List EKind :=
  EKind.transaction
    :: (List.replicate tx.value.inputs.length EKind.txInput
      ++ tx.value.outputs.flatMap (claimOutputKinds datumFirst)
      ++ (tx.value.certificates.getD []).map (fun c => EKind.cert (claimCertKind c))
      ++ List.replicate (tx.value.collateral.getD []).length EKind.collateral
      ++ List.replicate
          (match tx.value.mint with
           | some m => mintEntryCount m
           | none => 0)
          EKind.mint
      ++ (match aux_data with
          | some aux =>
            List.replicate (metadataLabelCount aux.value) EKind.metadata
              ++ List.replicate (auxNativeScripts aux.value).length EKind.nativeScript
              ++ List.replicate (auxPlutusScripts aux.value).length EKind.plutusScript
          | none => [])
      ++ (match witness_set with
          | some ws =>
            List.replicate (ws.value.native_script.getD []).length EKind.nativeWitness
              ++ List.replicate (ws.value.plutus_v1_script.getD []).length EKind.plutusWitness
              ++ List.replicate (ws.value.redeemer.getD []).length EKind.plutusRedeemer
              ++ List.replicate (ws.value.plutus_data.getD []).length EKind.plutusDatum
          | none => [])
      ++ (if cfg.include_transaction_end_events then [EKind.transactionEnd] else []))

def claimTxsKinds (cfg : Config) (datumFirst : Bool) (block : Ledger.MintedBlockB) :
    Nat → List (Ledger.KeepRaw Ledger.TransactionBodyB) → List EKind
  | _, [] => []
  | idx, tx :: rest =>
    claimTxKinds cfg datumFirst tx (auxForB block idx)
        (block.transaction_witness_sets.get? idx)
      ++ claimTxsKinds cfg datumFirst block (idx + 1) rest

/-- Spec order for one block (section 4.3, steps 1-3). -/
def claimBlockKinds (cfg : Config) (datumFirst : Bool)
    (block : Ledger.MintedBlockB) : List EKind :=
  EKind.block
    :: (claimTxsKinds cfg datumFirst block 0 block.transaction_bodies
      ++ (if cfg.include_block_end_events then [EKind.blockEnd] else []))

/-! ### Concrete fixtures used by witnesses and counterexamples -/

/-- An address renderer that accepts every byte string (hex rendering). -/
def envOkAddr : Env where
  addressFromBytes := fun bs => .ok (hexEncode bs)
  time := none

/-- An address renderer that rejects the empty byte string. -/
def envFailAddr : Env where
  addressFromBytes := fun bs =>
    if bs.isEmpty then .error "bad address" else .ok (hexEncode bs)
  time := none

def cfgAllOff : Config where
  include_transaction_details := false
  include_block_details := false
  include_block_cbor := false
  include_transaction_end_events := false
  include_block_end_events := false

def cfgAllOn : Config where
  include_transaction_details := true
  include_block_details := true
  include_block_cbor := true
  include_transaction_end_events := true
  include_block_end_events := true

def writer0 : EventWriter where
  context := emptyContext
  config := cfgAllOff
  env := envOkAddr

def writerD : EventWriter where
  context := emptyContext
  config := cfgAllOn
  env := envFailAddr

def emptyBodyB : Ledger.TransactionBodyB where
  inputs := []
  outputs := []
  fee := 0
  ttl := none
  validity_interval_start := none
  network_id := none
  mint := none
  certificates := none
  collateral := none
  collateral_return := none
  update := none
  required_signers := none
  withdrawals := none

def dfltEvent : Event where
  context := emptyContext
  data := .RollBack 0 ""
  fingerprint := none

/-! ### Hex round-trip lemmas -/

theorem hexCharVal_hexDigitChar : ∀ n, n < 16 → hexCharVal (hexDigitChar n) = some n := by
  decide

theorem hexDecodeChars_encode :
    ∀ bs : List Nat, (∀ b ∈ bs, b < 256) →
      hexDecodeChars (hexEncodeChars bs) = some bs := by
  intro bs h
  induction bs with
  | nil => rfl
  | cons b rest ih =>
    have hb : b < 256 := h b (List.mem_cons_self b rest)
    have h16 : b / 16 < 16 := by omega
    have hm : b % 16 < 16 := Nat.mod_lt _ (by norm_num)
    have ih2 := ih (fun x hx => h x (List.mem_cons_of_mem b hx))
    simp only [hexEncodeChars, List.flatMap_cons, List.cons_append, List.nil_append]
    simp only [hexDecodeChars, hexCharVal_hexDigitChar _ h16,
      hexCharVal_hexDigitChar _ hm, hexEncodeChars] at ih2 ⊢
    rw [ih2]
    simp [Nat.div_add_mod]

theorem hexDecode_hexEncode (bs : List Nat) (h : ∀ b ∈ bs, b < 256) :
    hexDecode (hexEncode bs) = some bs :=
  hexDecodeChars_encode bs h

/-! ### Claim theorems: stake credentials, certificates, withdrawals,
metadata labels, determinism -/

/-- C7: an instantaneous-reward-movement certificate sourced from the
reserves and targeting the other accounting pot with value v produces a
record with from_reserves true, from_treasury false, no stake-credential
targets and to_other_pot v. -/
theorem mir_reserves_to_other_pot (v : Nat) :
    to_certificate_record
        (.moveInstantaneousRewardsCert
          { source := .reserves, target := .otherAccountingPot v })
      = .moveInstantaneousRewardsCert
          { from_reserves := true, from_treasury := false,
            to_stake_credentials := none, to_other_pot := some v } := rfl

/-- C8: a stake credential record built from a key-hash input carries the
AddrKeyhash tag holding exactly the hex rendering of that hash, and the hash
is recoverable from it; likewise for a script-hash input. -/
theorem stake_credential_roundtrip (h : List Nat) (hb : ∀ b ∈ h, b < 256) :
    (StakeCredential.ofLedger (.addrKeyhash h) = .addrKeyhash (hexEncode h)
      ∧ hexDecode (hexEncode h) = some h)
    ∧ (StakeCredential.ofLedger (.scripthash h) = .scripthash (hexEncode h)
      ∧ hexDecode (hexEncode h) = some h) :=
  ⟨⟨rfl, hexDecode_hexEncode h hb⟩, ⟨rfl, hexDecode_hexEncode h hb⟩⟩

/-- Witness for C8 at the concrete hash [18, 171] (hex 12ab). -/
theorem stake_credential_roundtrip_witness :
    (StakeCredential.ofLedger (.addrKeyhash [18, 171])
        = .addrKeyhash (hexEncode [18, 171])
      ∧ hexDecode (hexEncode [18, 171]) = some [18, 171])
    ∧ (StakeCredential.ofLedger (.scripthash [18, 171])
        = .scripthash (hexEncode [18, 171])
      ∧ hexDecode (hexEncode [18, 171]) = some [18, 171]) :=
  stake_credential_roundtrip [18, 171] (by decide)

/-- C9: converting the same decoded block with the same hash, bytes and
configuration twice yields identical block records, for the alonzo-family
converter at every era tag and for the babbage converter; the converters
are pure functions of their explicit inputs. -/
theorem block_record_deterministic (w : EventWriter) (sourceA : Ledger.MintedBlock)
    (sourceB : Ledger.MintedBlockB) (hash cbor : List Nat) (era : Era) :
    to_block_record w sourceA hash cbor era = to_block_record w sourceA hash cbor era
    ∧ to_babbage_block_record w sourceB hash cbor
        = to_babbage_block_record w sourceB hash cbor :=
  ⟨rfl, rfl⟩

theorem stripPfx_e1_getD (s : String) :
    (stripPfx "e1" s).getD s
      = if "e1".isPrefixOf s then s.drop 2 else s := by
  unfold stripPfx
  have hl : ("e1" : String).length = 2 := rfl
  by_cases h : "e1".isPrefixOf s <;> simp [h, hl]

/-- C10: each withdrawal record renders the reward account as lowercase hex
with a leading e1 removed exactly when the hex rendering starts with e1, and
copies the coin value unchanged. -/
theorem withdrawal_records_spec (ws : List (List Nat × Nat)) :
    collect_withdrawal_records ws
      = ws.map (fun p =>
          { reward_account :=
              if "e1".isPrefixOf (hexEncode p.1) then (hexEncode p.1).drop 2
              else hexEncode p.1
            coin := p.2 }) := by
  unfold collect_withdrawal_records
  induction ws with
  | nil => rfl
  | cons p rest ih =>
    simp only [List.map_cons, ih]
    congr 1
    have := stripPfx_e1_getD (hexEncode p.1)
    simp only at this
    simp [this]

/-! ### Reduction helpers for the two result monads -/

theorem rr_bind_ok (a : α) (f : α → RResult β) : (RResult.ok a >>= f) = f a := rfl

theorem rr_bind_err (e : Err) (f : α → RResult β) :
    (RResult.err e >>= f) = RResult.err e := rfl

theorem rr_bind_panicked (f : α → RResult β) :
    (RResult.panicked >>= f) = RResult.panicked := rfl

theorem exc_bind_ok (a : α) (f : α → Except Err β) : (Except.ok a >>= f) = f a := rfl

theorem exc_bind_error (e : Err) (f : α → Except Err β) :
    ((Except.error e : Except Err α) >>= f) = Except.error e := rfl

/-! ### Metadata conversion never fails (C6 groundwork) -/

mutual

theorem to_metadatum_json_isOk :
    ∀ m : Ledger.Metadatum, ∃ j, to_metadatum_json m = .ok j
  | .int x => ⟨.num x, rfl⟩
  | .bytes x => ⟨.str (hexEncode x), rfl⟩
  | .text x => ⟨.str x, rfl⟩
  | .array xs =>
    (to_metadatum_json_list_isOk xs).elim fun js hjs =>
      ⟨.arr js, by simp [to_metadatum_json, hjs, exc_bind_ok]⟩
  | .map ps =>
    (to_metadatum_json_entries_isOk ps).elim fun es hes =>
      ⟨.obj (objOfList es), by simp [to_metadatum_json, hes, exc_bind_ok]⟩

theorem to_metadatum_json_list_isOk :
    ∀ xs : List Ledger.Metadatum, ∃ js, to_metadatum_json_list xs = .ok js
  | [] => ⟨[], rfl⟩
  | x :: xs =>
    (to_metadatum_json_isOk x).elim fun j hj =>
      (to_metadatum_json_list_isOk xs).elim fun js hjs =>
        ⟨j :: js, by simp [to_metadatum_json_list, hj, hjs, exc_bind_ok]⟩

theorem to_metadatum_json_entries_isOk :
    ∀ ps : List (Ledger.Metadatum × Ledger.Metadatum),
      ∃ es, to_metadatum_json_entries ps = .ok es
  | [] => ⟨[], rfl⟩
  | p :: ps =>
    (to_metadatum_json_isOk p.2).elim fun j hj =>
      (to_metadatum_json_entries_isOk ps).elim fun es hes =>
        ⟨(metadatum_to_string_key p.1, j) :: es, by
          simp [to_metadatum_json_entries, to_metadatum_json_map_entry, hj, hes,
            exc_bind_ok]⟩

end

theorem to_metadatum_json_map_entry_isOk (p : Ledger.Metadatum × Ledger.Metadatum) :
    ∃ e, to_metadatum_json_map_entry p = .ok e
      ∧ e.1 = metadatum_to_string_key p.1 := by
  obtain ⟨j, hj⟩ := to_metadatum_json_isOk p.2
  exact ⟨(metadatum_to_string_key p.1, j),
    by simp [to_metadatum_json_map_entry, hj, exc_bind_ok], rfl⟩

theorem to_metadata_record_isOk (label : Nat) (value : Ledger.Metadatum) :
    ∃ r, to_metadata_record label value = .ok r ∧ r.label = toString label := by
  cases value with
  | int x => exact ⟨_, rfl, rfl⟩
  | bytes x => exact ⟨_, rfl, rfl⟩
  | text x => exact ⟨_, rfl, rfl⟩
  | array xs =>
    obtain ⟨j, hj⟩ := to_metadatum_json_isOk (.array xs)
    refine ⟨{ label := toString label, content := .arrayJson j }, ?_, rfl⟩
    simp [to_metadata_record, hj, exc_bind_ok]
  | map ps =>
    obtain ⟨j, hj⟩ := to_metadatum_json_isOk (.map ps)
    refine ⟨{ label := toString label, content := .mapJson j }, ?_, rfl⟩
    simp [to_metadata_record, hj, exc_bind_ok]

/-- C6: a metadatum used in key position renders as its decimal string when
an integer, as lowercase hex when a byte string, verbatim when text, and as
the empty string for any other shape; a key of any shape still yields a
successful map entry (carrying exactly that rendering) and metadata-record
conversion never fails. -/
theorem metadata_label_rendering :
    (∀ x : Int, metadatum_to_string_key (.int x) = toString x)
    ∧ (∀ bs : List Nat, metadatum_to_string_key (.bytes bs) = hexEncode bs)
    ∧ (∀ s : String, metadatum_to_string_key (.text s) = s)
    ∧ (∀ xs : List Ledger.Metadatum, metadatum_to_string_key (.array xs) = "")
    ∧ (∀ ps, metadatum_to_string_key (.map ps) = "")
    ∧ (∀ p : Ledger.Metadatum × Ledger.Metadatum,
        ∃ e, to_metadatum_json_map_entry p = .ok e
          ∧ e.1 = metadatum_to_string_key p.1)
    ∧ (∀ (label : Nat) (value : Ledger.Metadatum),
        ∃ r, to_metadata_record label value = .ok r) :=
  ⟨fun _ => rfl, fun _ => rfl, fun _ => rfl, fun _ => rfl, fun _ => rfl,
    to_metadatum_json_map_entry_isOk,
    fun label value => (to_metadata_record_isOk label value).elim
      fun r h => ⟨r, h.1⟩⟩

/-! ### Transaction size (C1) -/

theorem rr_pure (a : α) : (pure a : RResult α) = RResult.ok a := rfl

theorem exc_pure (a : α) : (pure a : Except Err α) = Except.ok a := rfl

theorem rr_bind_ok_inv {X : RResult α} {f : α → RResult β} {r : β}
    (h : (X >>= f) = .ok r) : ∃ a, X = .ok a ∧ f a = .ok r := by
  cases X with
  | ok a => exact ⟨a, rfl, h⟩
  | err e => exact RResult.noConfusion h
  | panicked => exact RResult.noConfusion h

theorem exc_bind_ok_inv {X : Except Err α} {f : α → Except Err β} {r : β}
    (h : (X >>= f) = .ok r) : ∃ a, X = .ok a ∧ f a = .ok r := by
  cases X with
  | ok a => exact ⟨a, rfl, h⟩
  | error e => exact Except.noConfusion h

theorem liftE_eq_ok {Y : Except Err α} {a : α} (h : liftE Y = .ok a) : Y = .ok a := by
  cases Y with
  | ok b => cases h; rfl
  | error e => exact RResult.noConfusion h

def recOfR : RResult TransactionRecord → TransactionRecord
  | .ok r => r
  | _ => TransactionRecord.empty

def recOfE : Except Err TransactionRecord → TransactionRecord
  | .ok r => r
  | _ => TransactionRecord.empty

theorem txRecordWithMint_size (cfg : Config) (r : TransactionRecord) (m) :
    (txRecordWithMint cfg r m).size = r.size := by
  cases m <;> simp only [txRecordWithMint] <;> split <;> rfl

theorem txRecordWithCerts_size (cfg : Config) (r : TransactionRecord) (c) :
    (txRecordWithCerts cfg r c).size = r.size := by
  cases c <;> simp only [txRecordWithCerts] <;> split <;> rfl

theorem txRecordWithUpdateA_size (cfg : Config) (r : TransactionRecord) (u) :
    (txRecordWithUpdateA cfg r u).size = r.size := by
  cases u <;> simp only [txRecordWithUpdateA] <;> split <;> rfl

theorem txRecordWithUpdateB_size (cfg : Config) (r : TransactionRecord) (u) :
    (txRecordWithUpdateB cfg r u).size = r.size := by
  cases u <;> simp only [txRecordWithUpdateB] <;> split <;> rfl

theorem txRecordWithWithdrawals_size (r : TransactionRecord) (wd) :
    (txRecordWithWithdrawals r wd).size = r.size := by
  cases wd <;> rfl

theorem txRecordWithReqSigners_size (cfg : Config) (r : TransactionRecord) (rs r2)
    (h : txRecordWithReqSigners cfg r rs = .ok r2) : r2.size = r.size := by
  cases rs with
  | none => cases h; rfl
  | some req_signers =>
    simp only [txRecordWithReqSigners, collect_required_signers_records,
      exc_bind_ok] at h
    cases h
    split <;> rfl

theorem txRecordWithMetadata_size (r : TransactionRecord) (aux r2)
    (h : txRecordWithMetadata r aux = .ok r2) : r2.size = r.size := by
  cases aux with
  | none => cases h; rfl
  | some a =>
    simp only [txRecordWithMetadata] at h
    cases hm : collect_metadata_records a.value with
    | error e => rw [hm] at h; exact Except.noConfusion h
    | ok m => rw [hm, exc_bind_ok] at h; cases h; rfl

theorem txRecordWithWitnessesA_size (r : TransactionRecord) (ws r2)
    (h : txRecordWithWitnessesA r ws = .ok r2) : r2.size = r.size := by
  cases ws with
  | none => cases h; rfl
  | some witnesses =>
    simp only [txRecordWithWitnessesA] at h
    cases h1 : collect_vkey_witness_records witnesses.value.vkeywitness with
    | error e => rw [h1] at h; exact Except.noConfusion h
    | ok vk =>
    rw [h1, exc_bind_ok] at h
    cases h2 : collect_native_witness_records witnesses.value.native_script with
    | error e => rw [h2] at h; exact Except.noConfusion h
    | ok nw =>
    rw [h2, exc_bind_ok] at h
    cases h3 : collect_plutus_v1_witness_records witnesses.value.plutus_script with
    | error e => rw [h3] at h; exact Except.noConfusion h
    | ok pw =>
    rw [h3, exc_bind_ok] at h
    cases h4 : collect_plutus_redeemer_records witnesses.value.redeemer with
    | error e => rw [h4] at h; exact Except.noConfusion h
    | ok pr =>
    rw [h4, exc_bind_ok] at h
    cases h5 : collect_witness_plutus_datum_records witnesses.value.plutus_data with
    | error e => rw [h5] at h; exact Except.noConfusion h
    | ok pd =>
    rw [h5, exc_bind_ok] at h
    cases h
    rfl

theorem txRecordWithWitnessesB_size (r : TransactionRecord) (ws r2)
    (h : txRecordWithWitnessesB r ws = .ok r2) : r2.size = r.size := by
  cases ws with
  | none => cases h; rfl
  | some witnesses =>
    simp only [txRecordWithWitnessesB] at h
    cases h1 : collect_vkey_witness_records_babbage witnesses.value.vkeywitness with
    | error e => rw [h1] at h; exact Except.noConfusion h
    | ok vk =>
    rw [h1, exc_bind_ok] at h
    cases h2 : collect_native_witness_records_babbage witnesses.value.native_script with
    | error e => rw [h2] at h; exact Except.noConfusion h
    | ok nw =>
    rw [h2, exc_bind_ok] at h
    cases h3 :
        collect_plutus_v1_witness_records_babbage witnesses.value.plutus_v1_script with
    | error e => rw [h3] at h; exact Except.noConfusion h
    | ok pw =>
    rw [h3, exc_bind_ok] at h
    cases h4 : collect_plutus_redeemer_records_2 witnesses.value.redeemer with
    | error e => rw [h4] at h; exact Except.noConfusion h
    | ok pr =>
    rw [h4, exc_bind_ok] at h
    cases h5 :
        collect_witness_plutus_datum_records_babbage witnesses.value.plutus_data with
    | error e => rw [h5] at h; exact Except.noConfusion h
    | ok pd =>
    rw [h5, exc_bind_ok] at h
    cases h
    rfl

theorem txRecordWithCollateralReturn_size (w : EventWriter) (r : TransactionRecord)
    (c r2) (h : txRecordWithCollateralReturn w r c = .ok r2) : r2.size = r.size := by
  cases c with
  | none => cases h; rfl
  | some output =>
    simp only [txRecordWithCollateralReturn] at h
    cases ho : to_any_output_record w output with
    | error e =>
      rw [ho] at h
      simp only [unwrapE, rr_bind_panicked] at h
      exact RResult.noConfusion h
    | ok converted =>
      rw [ho] at h
      simp only [unwrapE, rr_bind_ok, rr_pure] at h
      cases h
      rfl

/-- A successfully produced babbage transaction record carries the section
size sum modulo 2^32 in its size field. -/
theorem babbage_record_ok_size (w : EventWriter) (body : Ledger.KeepRaw Ledger.TransactionBodyB)
    (tx_hash : String) (aux_data : Option (Ledger.KeepRaw Ledger.AuxiliaryData))
    (witness_set : Option (Ledger.KeepRaw Ledger.WitnessSetB)) (r : TransactionRecord)
    (h : to_babbage_transaction_record w body tx_hash aux_data witness_set = .ok r) :
    r.size = to_babbage_tx_size body aux_data witness_set % 2 ^ 32 := by
  unfold to_babbage_transaction_record at h
  obtain ⟨outputs, hc, h⟩ := rr_bind_ok_inv h
  obtain ⟨r5, hrs, h⟩ := rr_bind_ok_inv h
  have hr5 : r5.size = to_babbage_tx_size body aux_data witness_set % 2 ^ 32 := by
    have := txRecordWithReqSigners_size _ _ _ _ (liftE_eq_ok hrs)
    rw [this, txRecordWithUpdateB_size]
    show (txRecordWithCerts _ _ _).size = _
    rw [txRecordWithCerts_size, txRecordWithMint_size]
  split at h
  case isTrue hd =>
    obtain ⟨r6, hcol, h⟩ := rr_bind_ok_inv h
    have hr6 := txRecordWithCollateralReturn_size _ _ _ _ hcol
    obtain ⟨r7, hm, h⟩ := rr_bind_ok_inv h
    have hr7 := txRecordWithMetadata_size _ _ _ (liftE_eq_ok hm)
    obtain ⟨r8, hw, h⟩ := rr_bind_ok_inv h
    have hr8 := txRecordWithWitnessesB_size _ _ _ (liftE_eq_ok hw)
    simp only [rr_pure] at h
    cases h
    rw [txRecordWithWithdrawals_size, hr8, hr7, hr6]
    exact hr5
  case isFalse hd =>
    simp only [rr_pure] at h
    cases h
    exact hr5

/-- A successfully produced alonzo-family transaction record carries the
section size sum modulo 2^32 in its size field. -/
theorem alonzo_record_ok_size (w : EventWriter) (body : Ledger.KeepRaw Ledger.TransactionBody)
    (tx_hash : String) (aux_data : Option (Ledger.KeepRaw Ledger.AuxiliaryData))
    (witness_set : Option (Ledger.KeepRaw Ledger.WitnessSet)) (r : TransactionRecord)
    (h : to_transaction_record w body tx_hash aux_data witness_set = .ok r) :
    r.size = to_tx_size body aux_data witness_set % 2 ^ 32 := by
  unfold to_transaction_record at h
  obtain ⟨outputs, hc, h⟩ := exc_bind_ok_inv h
  obtain ⟨r5, hrs, h⟩ := exc_bind_ok_inv h
  have hr5 : r5.size = to_tx_size body aux_data witness_set % 2 ^ 32 := by
    have := txRecordWithReqSigners_size _ _ _ _ hrs
    rw [this, txRecordWithUpdateA_size, txRecordWithCerts_size, txRecordWithMint_size]
  split at h
  case isTrue hd =>
    obtain ⟨r7, hm, h⟩ := exc_bind_ok_inv h
    have hr7 := txRecordWithMetadata_size _ _ _ hm
    obtain ⟨r8, hw, h⟩ := exc_bind_ok_inv h
    have hr8 := txRecordWithWitnessesA_size _ _ _ hw
    cases h
    rw [txRecordWithWithdrawals_size, hr8, hr7]
    exact hr5
  case isFalse hd =>
    cases h
    exact hr5

/-- C1 (amended): both size functions compute exactly body-bytes plus
aux-bytes-or-2 plus witness-bytes-or-1; the size field of a successfully
produced transaction record is that sum reduced modulo 2^32 (the source
casts the sum to u32), hence equals the sum itself whenever it is below
2^32. -/
theorem tx_size_field (w : EventWriter) :
    (∀ body aux_data witness_set,
      to_babbage_tx_size body aux_data witness_set
        = body.raw_cbor.length
          + (match aux_data with
             | some ax => ax.raw_cbor.length
             | none => 2)
          + (match witness_set with
             | some s => s.raw_cbor.length
             | none => 1))
    ∧ (∀ body aux_data witness_set,
      to_tx_size body aux_data witness_set
        = body.raw_cbor.length
          + (match aux_data with
             | some ax => ax.raw_cbor.length
             | none => 2)
          + (match witness_set with
             | some s => s.raw_cbor.length
             | none => 1))
    ∧ (∀ body tx_hash aux_data witness_set r,
        to_babbage_transaction_record w body tx_hash aux_data witness_set = .ok r →
        r.size = to_babbage_tx_size body aux_data witness_set % 2 ^ 32)
    ∧ (∀ body tx_hash aux_data witness_set r,
        to_transaction_record w body tx_hash aux_data witness_set = .ok r →
        r.size = to_tx_size body aux_data witness_set % 2 ^ 32) := by
  refine ⟨?_, ?_, ?_, ?_⟩
  · intro body aux ws
    cases aux <;> cases ws <;> rfl
  · intro body aux ws
    cases aux <;> cases ws <;> rfl
  · intro body tx_hash aux ws r h
    exact babbage_record_ok_size w body tx_hash aux ws r h
  · intro body tx_hash aux ws r h
    exact alonzo_record_ok_size w body tx_hash aux ws r h

def smallBody : Ledger.KeepRaw Ledger.TransactionBodyB where
  value := emptyBodyB
  raw_cbor := [1, 2, 3]
  original_hash := [0]

/-- Witness for C1 at a three-byte body with no auxiliary data and no
witness set: the produced record's size field is 3 + 2 + 1 = 6. -/
theorem tx_size_field_witness :
    (recOfR (to_babbage_transaction_record writer0 smallBody "aa" none none)).size
        = to_babbage_tx_size smallBody none none % 2 ^ 32
    ∧ to_babbage_tx_size smallBody none none % 2 ^ 32 = 6 :=
  ⟨(tx_size_field writer0).2.2.1 smallBody "aa" none none _ rfl, rfl⟩

/-- A transaction body with the given original encoding and no content. -/
def mk1Body (l : List Nat) : Ledger.KeepRaw Ledger.TransactionBodyB where
  value := emptyBodyB
  raw_cbor := l
  original_hash := []

theorem mk1Body_tx_size (l : List Nat) :
    to_babbage_tx_size (mk1Body l) none none = l.length + 2 + 1 := rfl

theorem mk1Body_record_size (l : List Nat) :
    (recOfR (to_babbage_transaction_record writer0 (mk1Body l) "aa" none none)).size
      = (l.length + 2 + 1) % 2 ^ 32 := by
  have hok : ∃ r, to_babbage_transaction_record writer0 (mk1Body l) "aa" none none
      = .ok r := by
    unfold to_babbage_transaction_record
    rw [show collect_any_output_records writer0 (mk1Body l).value.outputs
          = Except.ok [] from rfl]
    simp only [liftE, rr_bind_ok]
    rw [show (mk1Body l).value.mint = none from rfl,
      show (mk1Body l).value.certificates = none from rfl,
      show (mk1Body l).value.update = none from rfl,
      show (mk1Body l).value.required_signers = none from rfl]
    have hdet : writer0.config.include_transaction_details = false := rfl
    simp only [txRecordWithMint, txRecordWithCerts, txRecordWithUpdateB,
      txRecordWithReqSigners, liftE, rr_bind_ok, hdet, Bool.false_eq_true,
      if_false, rr_pure]
    exact ⟨_, rfl⟩
  obtain ⟨r, hr⟩ := hok
  have hsize := babbage_record_ok_size writer0 (mk1Body l) "aa" none none r hr
  rw [hr]
  show r.size = _
  rw [hsize, mk1Body_tx_size]

def bigBody : Ledger.KeepRaw Ledger.TransactionBodyB :=
  mk1Body (List.replicate 4294967296 0)

/-- C1 counterexample: at a body whose original encoding is 2^32 bytes long
the sum of section lengths is 2^32 + 3 = 4294967299 but the record's size
field is 3: the u32 cast truncates, so the size field does not equal the
plain sum. -/
theorem tx_size_field_counterexample :
    to_babbage_tx_size bigBody none none = 4294967299
    ∧ (recOfR (to_babbage_transaction_record writer0 bigBody "aa" none none)).size = 3
    ∧ (3 : Nat) ≠ 4294967299 := by
  have hb : bigBody = mk1Body (List.replicate 4294967296 0) := rfl
  refine ⟨?_, ?_, by norm_num⟩
  · rw [hb, mk1Body_tx_size, List.length_replicate]
  · rw [hb, mk1Body_record_size, List.length_replicate]
    norm_num

def txTwoCollateral : Ledger.KeepRaw Ledger.TransactionBodyB where
  value := { emptyBodyB with
    collateral := some [{ transaction_id := [1], index := 0 },
                        { transaction_id := [2], index := 1 }] }
  raw_cbor := [0]
  original_hash := [0]

/-! ### Error propagation (C2) -/

/-- C2 (amended): a malformed-address decode error in a body output
propagates unmodified — the output conversion returns it, any failing
element aborts the whole output collection, a failing output collection
aborts the transaction conversion with the same error, and a failing
transaction collection aborts the block conversion with the same error
whenever the block conversion includes transaction records; no partial
record is ever produced.  The collateral-return output is the exception:
its conversion is unwrapped inside Option::map, so a malformed
collateral-return address panics (details on) or is ignored (details off)
instead of propagating. -/
theorem output_error_propagation :
    (∀ (w : EventWriter) (out : Ledger.PostAlonzoOutput) e,
        w.env.addressFromBytes out.address = .error e →
        to_post_alonzo_output_record w out = .error e)
    ∧ (∀ (w : EventWriter) (out : Ledger.LegacyOutput) e,
        w.env.addressFromBytes out.address = .error e →
        to_legacy_output_record w out = .error e)
    ∧ (∀ (w : EventWriter) (outs : List Ledger.MintedTransactionOutput) out e,
        out ∈ outs → to_any_output_record w out = .error e →
        ∃ e2, collect_any_output_records w outs = .error e2)
    ∧ (∀ (w : EventWriter) (body : Ledger.KeepRaw Ledger.TransactionBodyB)
        tx_hash aux_data witness_set e,
        collect_any_output_records w body.value.outputs = .error e →
        to_babbage_transaction_record w body tx_hash aux_data witness_set = .err e)
    ∧ (∀ (w : EventWriter) (block : Ledger.MintedBlockB) e,
        w.config.include_block_details = true →
        collect_babbage_tx_records w block = .err e →
        ∀ hash cbor, to_babbage_block_record w block hash cbor = .err e) := by
  refine ⟨?_, ?_, ?_, ?_, ?_⟩
  · intro w out e h
    unfold to_post_alonzo_output_record
    rw [h]
    rfl
  · intro w out e h
    unfold to_legacy_output_record
    rw [h]
    rfl
  · intro w outs out e hmem hfail
    induction outs with
    | nil => cases hmem
    | cons x xs ih =>
      cases hmem with
      | head =>
        refine ⟨e, ?_⟩
        unfold collect_any_output_records collectE
        rw [hfail]
        rfl
      | tail _ hmem2 =>
        cases hx : to_any_output_record w x with
        | error e2 =>
          refine ⟨e2, ?_⟩
          unfold collect_any_output_records collectE
          rw [hx]
          rfl
        | ok y =>
          obtain ⟨e2, h2⟩ := ih hmem2
          refine ⟨e2, ?_⟩
          unfold collect_any_output_records collectE
          rw [hx, exc_bind_ok]
          unfold collect_any_output_records at h2
          rw [h2]
          rfl
  · intro w body tx_hash aux_data witness_set e h
    unfold to_babbage_transaction_record
    rw [h]
    rfl
  · intro w block e hd hcoll hash cbor
    unfold to_babbage_block_record
    simp only [hd, if_true, eq_self_iff_true, hcoll, rr_bind_err]

def badPAOut : Ledger.PostAlonzoOutput where
  address := []
  value := .coin 5
  datum_option := none
  script_ref := none

def txBadCollateralReturn : Ledger.KeepRaw Ledger.TransactionBodyB where
  value := { emptyBodyB with collateral_return := some (.postAlonzo badPAOut) }
  raw_cbor := [0]
  original_hash := [0]

/-- C2 counterexample: with transaction details on, a malformed
collateral-return address makes the babbage transaction conversion panic
(the source unwraps the conversion result inside Option::map) instead of
returning the decode error. -/
theorem collateral_return_panic_counterexample :
    writerD.env.addressFromBytes badPAOut.address = .error "bad address"
    ∧ (to_babbage_transaction_record writerD txBadCollateralReturn "aa" none none).isPanicked
        = true :=
  ⟨rfl, rfl⟩

def txBadOutput : Ledger.KeepRaw Ledger.TransactionBodyB where
  value := { emptyBodyB with outputs := [.postAlonzo badPAOut] }
  raw_cbor := [0]
  original_hash := [0]

def hdr0 : Ledger.Header where
  header_body := { slot := 0, block_number := 0, prev_hash := none,
                   issuer_vkey := [], vrf_vkey := [], block_body_size := 0 }

def blockBad : Ledger.MintedBlockB where
  header := hdr0
  transaction_bodies := [txBadOutput]
  transaction_witness_sets := []
  auxiliary_data_set := []

/-- Witness for C2 at a concrete malformed body output: the decode error
"bad address" surfaces unchanged from the output conversion, the enclosing
transaction conversion, and the enclosing block conversion. -/
theorem output_error_propagation_witness :
    to_post_alonzo_output_record writerD badPAOut = .error "bad address"
    ∧ to_babbage_transaction_record writerD txBadOutput "aa" none none
        = .err "bad address"
    ∧ to_babbage_block_record writerD blockBad [] [] = .err "bad address" :=
  ⟨output_error_propagation.1 writerD badPAOut "bad address" rfl,
   output_error_propagation.2.2.2.1 writerD txBadOutput "aa" none none "bad address" rfl,
   output_error_propagation.2.2.2.2 writerD blockBad "bad address" rfl rfl [] []⟩

/-! ### Context inheritance (C4) -/

theorem seq_evs_mem {a b : Emit} {e : Event} (h : e ∈ (Emit.seq a b).evs) :
    e ∈ a.evs ∨ e ∈ b.evs := by
  unfold Emit.seq at h
  split at h
  · rcases List.mem_append.mp h with h1 | h2
    · exact Or.inl h1
    · exact Or.inr h2
  · exact Or.inl h
  · exact Or.inl h

/-- The block-number and transaction-index coordinates of every emitted
event agree with the writer's. -/
def keepsBT (w : EventWriter) (m : Emit) : Prop :=
  ∀ e ∈ m.evs,
    e.context.block_number = w.context.block_number
      ∧ e.context.tx_idx = w.context.tx_idx

theorem keepsBT_pureE (w : EventWriter) : keepsBT w pureE := by
  intro e he
  simp [pureE] at he

theorem keepsBT_emit1 (w : EventWriter) (d : EventData) :
    keepsBT w (emit1 (mkEvent w d)) := by
  intro e he
  simp only [emit1, List.mem_singleton] at he
  subst he
  exact ⟨rfl, rfl⟩

theorem keepsBT_seq {w : EventWriter} {a b : Emit}
    (h1 : keepsBT w a) (h2 : keepsBT w b) : keepsBT w (Emit.seq a b) := by
  intro e he
  rcases seq_evs_mem he with h | h
  · exact h1 e h
  · exact h2 e h

theorem keepsBT_bindEx {w : EventWriter} {r : Except Err α} {f : α → Emit}
    (h : ∀ a, keepsBT w (f a)) : keepsBT w (bindEx r f) := by
  intro e he
  cases r with
  | ok a => exact h a e he
  | error e2 => simp [bindEx] at he

theorem keepsBT_bindR {w : EventWriter} {r : RResult α} {f : α → Emit}
    (h : ∀ a, keepsBT w (f a)) : keepsBT w (bindR r f) := by
  intro e he
  cases r with
  | ok a => exact h a e he
  | err e2 => simp [bindR] at he
  | panicked => simp [bindR] at he

theorem keepsBT_emitEach {w : EventWriter} {f : α → Emit} {xs : List α}
    (h : ∀ x ∈ xs, keepsBT w (f x)) : keepsBT w (emitEach f xs) := by
  induction xs with
  | nil => exact keepsBT_pureE w
  | cons x xs ih =>
    exact keepsBT_seq (h x (List.mem_cons_self x xs))
      (ih fun y hy => h y (List.mem_cons_of_mem x hy))

theorem keepsBT_emitEachIdx {w : EventWriter} {f : Nat → α → Emit} {xs : List α}
    (h : ∀ i x, x ∈ xs → keepsBT w (f i x)) :
    ∀ i, keepsBT w (emitEachIdx f i xs) := by
  induction xs with
  | nil => intro i; exact keepsBT_pureE w
  | cons x xs ih =>
    intro i
    exact keepsBT_seq (h i x (List.mem_cons_self x xs))
      (ih (fun j y hy => h j y (List.mem_cons_of_mem x hy)) (i + 1))

theorem keepsBT_child (w : EventWriter) (o : EventContext)
    (hb : o.block_number = none) (hi : o.tx_idx = none) {m : Emit}
    (h : keepsBT (child_writer w o) m) : keepsBT w m := by
  intro e he
  obtain ⟨h1, h2⟩ := h e he
  refine ⟨?_, ?_⟩
  · rw [h1]
    show (mergeContext o w.context).block_number = _
    simp [mergeContext, hb, Option.orElse]
  · rw [h2]
    show (mergeContext o w.context).tx_idx = _
    simp [mergeContext, hi, Option.orElse]

theorem keepsBT_crawl_amount (w : EventWriter) (v : Ledger.Value) :
    keepsBT w (crawl_transaction_output_amount w v) :=
  keepsBT_emitEach fun r _ => keepsBT_emit1 w (.OutputAsset r)

theorem keepsBT_crawl_post_alonzo (w : EventWriter) (out : Ledger.PostAlonzoOutput) :
    keepsBT w (crawl_post_alonzo_output w out) := by
  unfold crawl_post_alonzo_output
  apply keepsBT_bindEx
  intro record
  apply keepsBT_seq (keepsBT_emit1 w (.TxOutput record))
  apply keepsBT_bindEx
  intro address
  apply keepsBT_seq
  · exact keepsBT_child w _ rfl rfl (keepsBT_crawl_amount _ out.value)
  · cases out.datum_option with
    | none => exact keepsBT_pureE w
    | some dopt =>
      cases dopt with
      | hash x => exact keepsBT_pureE w
      | data datum =>
        apply keepsBT_bindEx
        intro r
        exact keepsBT_child w _ rfl rfl (keepsBT_emit1 _ (.PlutusDatum r))

theorem keepsBT_crawl_legacy (w : EventWriter) (out : Ledger.LegacyOutput) :
    keepsBT w (crawl_legacy_output w out) := by
  unfold crawl_legacy_output
  apply keepsBT_bindEx
  intro record
  apply keepsBT_seq (keepsBT_emit1 w (.TxOutput record))
  apply keepsBT_bindEx
  intro address
  exact keepsBT_child w _ rfl rfl (keepsBT_crawl_amount _ out.amount)

theorem keepsBT_crawl_output (w : EventWriter) (out : Ledger.MintedTransactionOutput) :
    keepsBT w (crawl_babbage_transaction_output w out) := by
  cases out with
  | legacy x => exact keepsBT_crawl_legacy w x
  | postAlonzo x => exact keepsBT_crawl_post_alonzo w x

theorem keepsBT_crawl_auxdata (w : EventWriter) (aux : Ledger.AuxiliaryData) :
    keepsBT w (crawl_auxdata w aux) := by
  unfold crawl_auxdata
  apply keepsBT_bindEx
  intro records
  apply keepsBT_seq (keepsBT_emitEach fun r _ => keepsBT_emit1 w (.Metadata r))
  apply keepsBT_seq
  · exact keepsBT_emitEach fun s _ => keepsBT_emit1 w (to_aux_native_script_event s)
  · exact keepsBT_emitEach fun s _ => keepsBT_emit1 w (to_aux_plutus_script_event s)

theorem keepsBT_crawlWitList (w : EventWriter) (conv : β → Except Err γ)
    (mk : γ → EventData) (opt : Option (List β)) :
    keepsBT w (crawlWitList w conv mk opt) := by
  cases opt with
  | none => exact keepsBT_pureE w
  | some xs =>
    exact keepsBT_emitEach fun s _ => keepsBT_bindEx fun r => keepsBT_emit1 w (mk r)

theorem keepsBT_crawl_witness_set (w : EventWriter) (ws : Ledger.WitnessSetB) :
    keepsBT w (crawl_babbage_witness_set w ws) := by
  unfold crawl_babbage_witness_set
  exact keepsBT_seq (keepsBT_crawlWitList w _ _ _)
    (keepsBT_seq (keepsBT_crawlWitList w _ _ _)
      (keepsBT_seq (keepsBT_crawlWitList w _ _ _) (keepsBT_crawlWitList w _ _ _)))

theorem keepsBT_crawl_tx_certs (w : EventWriter) (opt : Option (List Ledger.Certificate)) :
    keepsBT w (crawl_tx_certs w opt) := by
  cases opt with
  | none => exact keepsBT_pureE w
  | some certs =>
    unfold crawl_tx_certs
    apply keepsBT_emitEachIdx
    intro i c _
    exact keepsBT_child w _ rfl rfl (keepsBT_emit1 _ (to_certificate_event c))

theorem keepsBT_crawl_tx_collateral (w : EventWriter)
    (opt : Option (List Ledger.TransactionInput)) :
    keepsBT w (crawl_tx_collateral w opt) := by
  cases opt with
  | none => exact keepsBT_pureE w
  | some collateral =>
    unfold crawl_tx_collateral
    exact keepsBT_emitEach fun c _ => keepsBT_emit1 w (to_collateral_event c)

theorem keepsBT_crawl_tx_mint (w : EventWriter) (opt : Option (Ledger.Multiasset Int)) :
    keepsBT w (crawl_tx_mint w opt) := by
  cases opt with
  | none => exact keepsBT_pureE w
  | some mint =>
    unfold crawl_tx_mint
    exact keepsBT_emitEach fun r _ => keepsBT_emit1 w (.Mint r)

theorem keepsBT_crawl_tx_aux (w : EventWriter)
    (opt : Option (Ledger.KeepRaw Ledger.AuxiliaryData)) :
    keepsBT w (crawl_tx_aux w opt) := by
  cases opt with
  | none => exact keepsBT_pureE w
  | some aux => exact keepsBT_crawl_auxdata w aux.value

theorem keepsBT_crawl_tx_ws (w : EventWriter)
    (opt : Option (Ledger.KeepRaw Ledger.WitnessSetB)) :
    keepsBT w (crawl_tx_ws w opt) := by
  cases opt with
  | none => exact keepsBT_pureE w
  | some ws => exact keepsBT_crawl_witness_set w ws.value

theorem keepsBT_crawl_tx (w : EventWriter) (tx : Ledger.KeepRaw Ledger.TransactionBodyB)
    (tx_hash : String) (aux_data : Option (Ledger.KeepRaw Ledger.AuxiliaryData))
    (witness_set : Option (Ledger.KeepRaw Ledger.WitnessSetB)) :
    keepsBT w (crawl_babbage_transaction w tx tx_hash aux_data witness_set) := by
  unfold crawl_babbage_transaction
  apply keepsBT_bindR
  intro record
  apply keepsBT_seq (keepsBT_emit1 w (.Transaction record))
  apply keepsBT_seq
  · apply keepsBT_emitEachIdx
    intro i x _
    exact keepsBT_child w _ rfl rfl
      (keepsBT_emit1 _ (.TxInput (to_transaction_input_record x)))
  apply keepsBT_seq
  · apply keepsBT_emitEachIdx
    intro i x _
    exact keepsBT_child w _ rfl rfl (keepsBT_crawl_output _ x)
  apply keepsBT_seq (keepsBT_crawl_tx_certs w _)
  apply keepsBT_seq (keepsBT_crawl_tx_collateral w _)
  apply keepsBT_seq (keepsBT_crawl_tx_mint w _)
  apply keepsBT_seq (keepsBT_crawl_tx_aux w _)
  apply keepsBT_seq (keepsBT_crawl_tx_ws w _)
  split
  · exact keepsBT_emit1 w (.TransactionEnd record)
  · exact keepsBT_pureE w

/-- C4: every event emitted while crawling a transaction inherits the
writer's block number and transaction index unchanged, at every nesting
depth — child contexts override only the coordinates of their own depth and
never clear inherited ones; in particular inside transaction index 3 of
block number 100 every event carries block_number 100 and tx_idx 3. -/
theorem context_inheritance (w : EventWriter) (b i : Nat)
    (hb : w.context.block_number = some b) (hi : w.context.tx_idx = some i)
    (tx : Ledger.KeepRaw Ledger.TransactionBodyB) (tx_hash : String)
    (aux_data : Option (Ledger.KeepRaw Ledger.AuxiliaryData))
    (witness_set : Option (Ledger.KeepRaw Ledger.WitnessSetB)) :
    ∀ e ∈ (crawl_babbage_transaction w tx tx_hash aux_data witness_set).evs,
      e.context.block_number = some b ∧ e.context.tx_idx = some i := by
  intro e he
  obtain ⟨h1, h2⟩ := keepsBT_crawl_tx w tx tx_hash aux_data witness_set e he
  exact ⟨h1.trans hb, h2.trans hi⟩

def w4 : EventWriter where
  context := { emptyContext with block_number := some 100, tx_idx := some 3 }
  config := cfgAllOff
  env := envOkAddr

def tx4 : Ledger.KeepRaw Ledger.TransactionBodyB where
  value := { emptyBodyB with
    inputs := [{ transaction_id := [7], index := 0 }]
    outputs := [.postAlonzo { address := [1], value := .coin 9,
                              datum_option := none, script_ref := none }] }
  raw_cbor := [0]
  original_hash := [0]

/-- Witness for C4: inside transaction index 3 of block number 100 the crawl
emits three events (Transaction, TxInput, TxOutput) and each carries
block_number 100 and tx_idx 3. -/
theorem context_inheritance_witness :
    (crawl_babbage_transaction w4 tx4 "aa" none none).evs.length = 3
    ∧ (crawl_babbage_transaction w4 tx4 "aa" none none).evs.all
        (fun e => e.context.block_number == some 100 && e.context.tx_idx == some 3)
        = true := by
  refine ⟨rfl, List.all_eq_true.mpr ?_⟩
  intro e he
  have h := context_inheritance w4 100 3 rfl rfl tx4 "aa" none none e he
  simp [h.1, h.2]

/-! ### Emission order (C3) -/

theorem seq_st_ok_iff {a b : Emit} :
    (Emit.seq a b).st = .ok ↔ a.st = .ok ∧ b.st = .ok := by
  unfold Emit.seq
  split
  · next h => simp [h]
  · next h => simp [h]
  · next h => simp [h]

theorem seq_evs_of_ok {a b : Emit} (h : a.st = .ok) :
    (Emit.seq a b).evs = a.evs ++ b.evs := by
  unfold Emit.seq
  rw [h]

theorem bindEx_st_ok {r : Except Err α} {f : α → Emit}
    (h : (bindEx r f).st = .ok) : ∃ a, r = .ok a ∧ (f a).st = .ok := by
  cases r with
  | ok a => exact ⟨a, rfl, h⟩
  | error e => simp [bindEx] at h

theorem bindR_st_ok {r : RResult α} {f : α → Emit}
    (h : (bindR r f).st = .ok) : ∃ a, r = .ok a ∧ (f a).st = .ok := by
  cases r with
  | ok a => exact ⟨a, rfl, h⟩
  | err e => simp [bindR] at h
  | panicked => simp [bindR] at h

theorem emitEach_st_ok {f : α → Emit} (hf : ∀ x, (f x).st = .ok) :
    ∀ xs : List α, (emitEach f xs).st = .ok := by
  intro xs
  induction xs with
  | nil => rfl
  | cons x xs ih => exact seq_st_ok_iff.mpr ⟨hf x, ih⟩

theorem emitEach_emit1_evs (w : EventWriter) (k : α → EventData) :
    ∀ rs : List α,
      (emitEach (fun r => emit1 (mkEvent w (k r))) rs).evs
        = rs.map (fun r => mkEvent w (k r)) := by
  intro rs
  induction rs with
  | nil => rfl
  | cons r rs ih =>
    show (Emit.seq _ _).evs = _
    rw [seq_evs_of_ok rfl, ih]
    rfl

theorem map_kind_mkEvent (w : EventWriter) (k : α → EventData) (c : EKind)
    (hk : ∀ r, (k r).kind = c) :
    ∀ rs : List α,
      ((rs.map (fun r => mkEvent w (k r))).map Event.kind)
        = List.replicate rs.length c := by
  intro rs
  induction rs with
  | nil => rfl
  | cons r rs ih =>
    simp only [List.map_cons, List.length_cons, List.replicate_succ]
    rw [ih]
    show (k r).kind :: _ = _
    rw [hk r]

theorem collect_asset_records_length (v : Ledger.Value) :
    (collect_asset_records v).length = valueAssetCount v := by
  cases v with
  | coin a => rfl
  | multiasset a policies =>
    show (policies.flatMap _).length = _
    unfold valueAssetCount
    induction policies with
    | nil => rfl
    | cons p ps ih =>
      simp only [List.flatMap_cons, List.length_append, List.map_cons, List.sum_cons,
        List.length_map, ih]

theorem collect_mint_records_length (m : Ledger.Multiasset Int) :
    (collect_mint_records m).length = mintEntryCount m := by
  unfold collect_mint_records mintEntryCount
  induction m with
  | nil => rfl
  | cons p ps ih =>
    simp only [List.flatMap_cons, List.length_append, List.map_cons, List.sum_cons,
      List.length_map, ih]

theorem crawl_amount_st (w : EventWriter) (v : Ledger.Value) :
    (crawl_transaction_output_amount w v).st = .ok :=
  emitEach_st_ok (fun _ => rfl) _

theorem crawl_amount_kinds (w : EventWriter) (v : Ledger.Value) :
    (crawl_transaction_output_amount w v).evs.map Event.kind
      = List.replicate (valueAssetCount v) .outputAsset := by
  unfold crawl_transaction_output_amount
  rw [emitEach_emit1_evs,
    map_kind_mkEvent w (fun r => EventData.OutputAsset r) .outputAsset (fun _ => rfl),
    collect_asset_records_length]

theorem bindEx_ok (a : α) (f : α → Emit) : bindEx (Except.ok a) f = f a := rfl

theorem bindR_ok (a : α) (f : α → Emit) : bindR (RResult.ok a) f = f a := rfl

theorem crawl_post_alonzo_kinds (w : EventWriter) (out : Ledger.PostAlonzoOutput)
    (h : (crawl_post_alonzo_output w out).st = .ok) :
    (crawl_post_alonzo_output w out).evs.map Event.kind
      = claimOutputKinds false (.postAlonzo out) := by
  unfold crawl_post_alonzo_output at h ⊢
  obtain ⟨record, hrec, h⟩ := bindEx_st_ok h
  replace h := (seq_st_ok_iff.mp h).2
  obtain ⟨address, haddr, h⟩ := bindEx_st_ok h
  simp only [hrec, bindEx_ok]
  rw [seq_evs_of_ok rfl]
  simp only [haddr, bindEx_ok]
  rw [seq_evs_of_ok (crawl_amount_st _ _)]
  unfold claimOutputKinds
  cases hdo : out.datum_option with
  | none =>
    simp [hdo, crawl_amount_kinds, emit1, mkEvent, Event.kind, EventData.kind, pureE]
  | some dopt =>
    cases dopt with
    | hash x =>
      simp [hdo, crawl_amount_kinds, emit1, mkEvent, Event.kind, EventData.kind, pureE]
    | data datum =>
      simp [hdo, crawl_amount_kinds, emit1, mkEvent, Event.kind, EventData.kind,
        to_plutus_datum_record, bindEx]

theorem crawl_legacy_kinds (w : EventWriter) (out : Ledger.LegacyOutput)
    (h : (crawl_legacy_output w out).st = .ok) :
    (crawl_legacy_output w out).evs.map Event.kind
      = claimOutputKinds false (.legacy out) := by
  unfold crawl_legacy_output at h ⊢
  obtain ⟨record, hrec, h⟩ := bindEx_st_ok h
  replace h := (seq_st_ok_iff.mp h).2
  obtain ⟨address, haddr, h⟩ := bindEx_st_ok h
  simp only [hrec, bindEx_ok]
  rw [seq_evs_of_ok rfl]
  simp only [haddr, bindEx_ok]
  unfold claimOutputKinds
  simp [crawl_amount_kinds, emit1, mkEvent, Event.kind, EventData.kind]

theorem crawl_output_kinds (w : EventWriter) (out : Ledger.MintedTransactionOutput)
    (h : (crawl_babbage_transaction_output w out).st = .ok) :
    (crawl_babbage_transaction_output w out).evs.map Event.kind
      = claimOutputKinds false out := by
  cases out with
  | legacy x => exact crawl_legacy_kinds w x h
  | postAlonzo x => exact crawl_post_alonzo_kinds w x h

theorem flatMap_const_single (c : EKind) :
    ∀ xs : List α, xs.flatMap (fun _ => [c]) = List.replicate xs.length c := by
  intro xs
  induction xs with
  | nil => rfl
  | cons x xs ih => simp [List.flatMap_cons, List.replicate_succ, ih]

theorem flatMap_single (g : α → EKind) :
    ∀ xs : List α, xs.flatMap (fun x => [g x]) = xs.map g := by
  intro xs
  induction xs with
  | nil => rfl
  | cons x xs ih => simp [List.flatMap_cons, ih]

theorem emitEachIdx_st_ok {f : Nat → α → Emit} (hf : ∀ i x, (f i x).st = .ok) :
    ∀ (i : Nat) (xs : List α), (emitEachIdx f i xs).st = .ok := by
  intro i xs
  induction xs generalizing i with
  | nil => rfl
  | cons x xs ih => exact seq_st_ok_iff.mpr ⟨hf i x, ih (i + 1)⟩

theorem emitEach_kinds {f : α → Emit} {g : α → List EKind}
    (hk : ∀ x, (f x).st = .ok → (f x).evs.map Event.kind = g x) :
    ∀ xs : List α, (emitEach f xs).st = .ok →
      (emitEach f xs).evs.map Event.kind = xs.flatMap g := by
  intro xs
  induction xs with
  | nil => intro _; rfl
  | cons x xs ih =>
    intro h
    obtain ⟨h1, h2⟩ := seq_st_ok_iff.mp h
    show ((Emit.seq (f x) (emitEach f xs)).evs).map Event.kind = _
    rw [seq_evs_of_ok h1, List.map_append, hk x h1, ih h2, List.flatMap_cons]

theorem emitEachIdx_kinds {f : Nat → α → Emit} {g : α → List EKind}
    (hk : ∀ i x, (f i x).st = .ok → (f i x).evs.map Event.kind = g x) :
    ∀ (i : Nat) (xs : List α), (emitEachIdx f i xs).st = .ok →
      (emitEachIdx f i xs).evs.map Event.kind = xs.flatMap g := by
  intro i xs
  induction xs generalizing i with
  | nil => intro _; rfl
  | cons x xs ih =>
    intro h
    obtain ⟨h1, h2⟩ := seq_st_ok_iff.mp h
    show ((Emit.seq (f i x) (emitEachIdx f (i + 1) xs)).evs).map Event.kind = _
    rw [seq_evs_of_ok h1, List.map_append, hk i x h1, ih (i + 1) h2, List.flatMap_cons]

theorem to_certificate_event_kind (c : Ledger.Certificate) :
    (to_certificate_event c).kind = .cert (claimCertKind c) := by
  cases c <;> rfl

theorem collectE_ok_of {f : α → Except Err β} (hf : ∀ x, ∃ y, f x = .ok y) :
    ∀ xs : List α, ∃ ys, collectE f xs = .ok ys ∧ ys.length = xs.length := by
  intro xs
  induction xs with
  | nil => exact ⟨[], rfl, rfl⟩
  | cons x xs ih =>
    obtain ⟨y, hy⟩ := hf x
    obtain ⟨ys, h1, h2⟩ := ih
    exact ⟨y :: ys, by simp [collectE, hy, h1, exc_bind_ok], by simp [h2]⟩

theorem collect_metadata_records_ok (aux : Ledger.AuxiliaryData) :
    ∃ rs, collect_metadata_records aux = .ok rs ∧ rs.length = metadataLabelCount aux := by
  have hone : ∀ p : Nat × Ledger.Metadatum, ∃ r, to_metadata_record p.1 p.2 = .ok r :=
    fun p => (to_metadata_record_isOk p.1 p.2).elim fun r h => ⟨r, h.1⟩
  cases aux with
  | postAlonzo data =>
    cases hm : data.metadata with
    | none => exact ⟨[], by simp [collect_metadata_records, hm],
        by simp [metadataLabelCount, hm]⟩
    | some x =>
      obtain ⟨ys, h1, h2⟩ := collectE_ok_of hone x
      exact ⟨ys, by simp [collect_metadata_records, hm, h1],
        by simp [metadataLabelCount, hm, h2]⟩
  | shelley data =>
    obtain ⟨ys, h1, h2⟩ := collectE_ok_of hone data
    exact ⟨ys, by simp [collect_metadata_records, h1], by simp [metadataLabelCount, h2]⟩
  | shelleyMa tm scripts =>
    obtain ⟨ys, h1, h2⟩ := collectE_ok_of hone tm
    exact ⟨ys, by simp [collect_metadata_records, h1], by simp [metadataLabelCount, h2]⟩

theorem crawl_auxdata_st (w : EventWriter) (aux : Ledger.AuxiliaryData) :
    (crawl_auxdata w aux).st = .ok := by
  unfold crawl_auxdata
  obtain ⟨rs, h1, -⟩ := collect_metadata_records_ok aux
  simp only [h1, bindEx_ok]
  exact seq_st_ok_iff.mpr ⟨emitEach_st_ok (fun _ => rfl) _,
    seq_st_ok_iff.mpr ⟨emitEach_st_ok (fun _ => rfl) _, emitEach_st_ok (fun _ => rfl) _⟩⟩

theorem crawl_auxdata_kinds (w : EventWriter) (aux : Ledger.AuxiliaryData) :
    (crawl_auxdata w aux).evs.map Event.kind
      = List.replicate (metadataLabelCount aux) EKind.metadata
        ++ (List.replicate (auxNativeScripts aux).length EKind.nativeScript
          ++ List.replicate (auxPlutusScripts aux).length EKind.plutusScript) := by
  unfold crawl_auxdata
  obtain ⟨rs, h1, h2⟩ := collect_metadata_records_ok aux
  simp only [h1, bindEx_ok]
  rw [seq_evs_of_ok (emitEach_st_ok (fun _ => rfl) _),
    seq_evs_of_ok (emitEach_st_ok (fun _ => rfl) _),
    List.map_append, List.map_append,
    emitEach_emit1_evs w (fun r => EventData.Metadata r),
    emitEach_emit1_evs w (fun s => to_aux_native_script_event s),
    emitEach_emit1_evs w (fun s => to_aux_plutus_script_event s),
    map_kind_mkEvent w (fun r => EventData.Metadata r) .metadata (fun _ => rfl),
    map_kind_mkEvent w (fun s => to_aux_native_script_event s) .nativeScript (fun _ => rfl),
    map_kind_mkEvent w (fun s => to_aux_plutus_script_event s) .plutusScript (fun _ => rfl),
    h2]

theorem crawlWitList_st (w : EventWriter) (conv : β → Except Err γ) (mk : γ → EventData)
    (hconv : ∀ x, ∃ y, conv x = .ok y) :
    ∀ opt, (crawlWitList w conv mk opt).st = .ok := by
  intro opt
  cases opt with
  | none => rfl
  | some xs =>
    exact emitEach_st_ok
      (fun x => by obtain ⟨y, hy⟩ := hconv x; simp [hy, bindEx_ok, emit1]) xs

theorem crawlWitList_kinds (w : EventWriter) (conv : β → Except Err γ)
    (mk : γ → EventData) (c : EKind) (hconv : ∀ x, ∃ y, conv x = .ok y)
    (hmk : ∀ y, (mk y).kind = c) :
    ∀ opt, (crawlWitList w conv mk opt).evs.map Event.kind
      = List.replicate (opt.getD []).length c := by
  intro opt
  cases opt with
  | none => rfl
  | some xs =>
    show (emitEach _ xs).evs.map Event.kind = List.replicate xs.length c
    rw [emitEach_kinds (g := fun _ => [c])
        (fun x hx => by
          obtain ⟨y, hy⟩ := hconv x
          simp [hy, bindEx_ok, emit1, mkEvent, Event.kind, hmk y])
        xs
        (emitEach_st_ok
          (fun x => by obtain ⟨y, hy⟩ := hconv x; simp [hy, bindEx_ok, emit1]) xs),
      flatMap_const_single]

theorem crawl_ws_st (w : EventWriter) (ws : Ledger.WitnessSetB) :
    (crawl_babbage_witness_set w ws).st = .ok := by
  unfold crawl_babbage_witness_set
  exact seq_st_ok_iff.mpr
    ⟨crawlWitList_st w to_native_witness_record .NativeWitness (fun x => ⟨_, rfl⟩) _,
      seq_st_ok_iff.mpr
        ⟨crawlWitList_st w to_plutus_v1_witness_record .PlutusWitness (fun x => ⟨_, rfl⟩) _,
          seq_st_ok_iff.mpr
            ⟨crawlWitList_st w to_plutus_redeemer_record .PlutusRedeemer
                (fun x => ⟨_, rfl⟩) _,
              crawlWitList_st w to_plutus_datum_record .PlutusDatum (fun x => ⟨_, rfl⟩) _⟩⟩⟩

theorem crawl_ws_kinds (w : EventWriter) (ws : Ledger.WitnessSetB) :
    (crawl_babbage_witness_set w ws).evs.map Event.kind
      = List.replicate (ws.native_script.getD []).length EKind.nativeWitness
        ++ (List.replicate (ws.plutus_v1_script.getD []).length EKind.plutusWitness
          ++ (List.replicate (ws.redeemer.getD []).length EKind.plutusRedeemer
            ++ List.replicate (ws.plutus_data.getD []).length EKind.plutusDatum)) := by
  unfold crawl_babbage_witness_set
  rw [seq_evs_of_ok
      (crawlWitList_st w to_native_witness_record .NativeWitness (fun x => ⟨_, rfl⟩) _),
    seq_evs_of_ok
      (crawlWitList_st w to_plutus_v1_witness_record .PlutusWitness (fun x => ⟨_, rfl⟩) _),
    seq_evs_of_ok
      (crawlWitList_st w to_plutus_redeemer_record .PlutusRedeemer (fun x => ⟨_, rfl⟩) _),
    List.map_append, List.map_append, List.map_append,
    crawlWitList_kinds w to_native_witness_record .NativeWitness .nativeWitness
      (fun x => ⟨_, rfl⟩) (fun _ => rfl),
    crawlWitList_kinds w to_plutus_v1_witness_record .PlutusWitness .plutusWitness
      (fun x => ⟨_, rfl⟩) (fun _ => rfl),
    crawlWitList_kinds w to_plutus_redeemer_record .PlutusRedeemer .plutusRedeemer
      (fun x => ⟨_, rfl⟩) (fun _ => rfl),
    crawlWitList_kinds w to_plutus_datum_record .PlutusDatum .plutusDatum
      (fun x => ⟨_, rfl⟩) (fun _ => rfl)]

theorem crawl_tx_certs_st (w : EventWriter) (opt : Option (List Ledger.Certificate)) :
    (crawl_tx_certs w opt).st = .ok := by
  cases opt with
  | none => rfl
  | some certs => exact emitEachIdx_st_ok (fun i c => rfl) 0 certs

theorem crawl_tx_certs_kinds (w : EventWriter) (opt : Option (List Ledger.Certificate)) :
    (crawl_tx_certs w opt).evs.map Event.kind
      = (opt.getD []).map (fun c => EKind.cert (claimCertKind c)) := by
  cases opt with
  | none => rfl
  | some certs =>
    show (emitEachIdx _ 0 certs).evs.map Event.kind = _
    rw [emitEachIdx_kinds (g := fun c => [EKind.cert (claimCertKind c)])
        (fun i c _ => by
          show [(mkEvent _ (to_certificate_event c)).kind] = _
          rw [show (mkEvent _ (to_certificate_event c)).kind
              = (to_certificate_event c).kind from rfl, to_certificate_event_kind])
        0 certs (emitEachIdx_st_ok (fun i c => rfl) 0 certs),
      flatMap_single]
    rfl

theorem crawl_tx_collateral_st (w : EventWriter)
    (opt : Option (List Ledger.TransactionInput)) :
    (crawl_tx_collateral w opt).st = .ok := by
  cases opt with
  | none => rfl
  | some collateral => exact emitEach_st_ok (fun c => rfl) collateral

theorem crawl_tx_collateral_kinds (w : EventWriter)
    (opt : Option (List Ledger.TransactionInput)) :
    (crawl_tx_collateral w opt).evs.map Event.kind
      = List.replicate (opt.getD []).length EKind.collateral := by
  cases opt with
  | none => rfl
  | some collateral =>
    show (emitEach (fun c => crawl_collateral w c) collateral).evs.map Event.kind = _
    rw [emitEach_kinds (f := fun c => crawl_collateral w c)
        (g := fun _ => [EKind.collateral]) (fun c _ => rfl) collateral
        (emitEach_st_ok (fun c => rfl) collateral),
      flatMap_const_single]
    rfl

theorem crawl_tx_mint_st (w : EventWriter) (opt : Option (Ledger.Multiasset Int)) :
    (crawl_tx_mint w opt).st = .ok := by
  cases opt with
  | none => rfl
  | some mint => exact emitEach_st_ok (fun r => rfl) _

theorem crawl_tx_mint_kinds (w : EventWriter) (opt : Option (Ledger.Multiasset Int)) :
    (crawl_tx_mint w opt).evs.map Event.kind
      = List.replicate
          (match opt with
           | some m => mintEntryCount m
           | none => 0)
          EKind.mint := by
  cases opt with
  | none => rfl
  | some mint =>
    show (crawl_mints w mint).evs.map Event.kind = _
    unfold crawl_mints
    rw [emitEach_emit1_evs w (fun r => EventData.Mint r),
      map_kind_mkEvent w (fun r => EventData.Mint r) .mint (fun _ => rfl),
      collect_mint_records_length]

theorem crawl_tx_aux_st (w : EventWriter)
    (opt : Option (Ledger.KeepRaw Ledger.AuxiliaryData)) :
    (crawl_tx_aux w opt).st = .ok := by
  cases opt with
  | none => rfl
  | some aux => exact crawl_auxdata_st w aux.value

theorem crawl_tx_aux_kinds (w : EventWriter)
    (opt : Option (Ledger.KeepRaw Ledger.AuxiliaryData)) :
    (crawl_tx_aux w opt).evs.map Event.kind
      = (match opt with
         | some aux =>
           List.replicate (metadataLabelCount aux.value) EKind.metadata
             ++ List.replicate (auxNativeScripts aux.value).length EKind.nativeScript
             ++ List.replicate (auxPlutusScripts aux.value).length EKind.plutusScript
         | none => []) := by
  cases opt with
  | none => rfl
  | some aux =>
    show (crawl_auxdata w aux.value).evs.map Event.kind = _
    rw [crawl_auxdata_kinds]
    simp [List.append_assoc]

theorem crawl_tx_ws_st (w : EventWriter)
    (opt : Option (Ledger.KeepRaw Ledger.WitnessSetB)) :
    (crawl_tx_ws w opt).st = .ok := by
  cases opt with
  | none => rfl
  | some ws => exact crawl_ws_st w ws.value

theorem crawl_tx_ws_kinds (w : EventWriter)
    (opt : Option (Ledger.KeepRaw Ledger.WitnessSetB)) :
    (crawl_tx_ws w opt).evs.map Event.kind
      = (match opt with
         | some ws =>
           List.replicate (ws.value.native_script.getD []).length EKind.nativeWitness
             ++ List.replicate (ws.value.plutus_v1_script.getD []).length
                 EKind.plutusWitness
             ++ List.replicate (ws.value.redeemer.getD []).length EKind.plutusRedeemer
             ++ List.replicate (ws.value.plutus_data.getD []).length EKind.plutusDatum
         | none => []) := by
  cases opt with
  | none => rfl
  | some ws =>
    show (crawl_babbage_witness_set w ws.value).evs.map Event.kind = _
    rw [crawl_ws_kinds]
    simp [List.append_assoc]

theorem crawl_tx_end_kinds (w : EventWriter) (record : TransactionRecord) :
    ((if w.config.include_transaction_end_events then
        emit1 (mkEvent w (.TransactionEnd record))
      else pureE).evs).map Event.kind
      = (if w.config.include_transaction_end_events then [EKind.transactionEnd] else []) := by
  cases hb : w.config.include_transaction_end_events <;>
    simp [hb, emit1, pureE, mkEvent, Event.kind, EventData.kind]

theorem crawl_tx_kinds (w : EventWriter) (tx : Ledger.KeepRaw Ledger.TransactionBodyB)
    (tx_hash : String) (aux_data : Option (Ledger.KeepRaw Ledger.AuxiliaryData))
    (witness_set : Option (Ledger.KeepRaw Ledger.WitnessSetB))
    (h : (crawl_babbage_transaction w tx tx_hash aux_data witness_set).st = .ok) :
    (crawl_babbage_transaction w tx tx_hash aux_data witness_set).evs.map Event.kind
      = claimTxKinds w.config false tx aux_data witness_set := by
  unfold crawl_babbage_transaction at h ⊢
  obtain ⟨record, hrec, h⟩ := bindR_st_ok h
  simp only [hrec, bindR_ok] at h ⊢
  obtain ⟨-, h⟩ := seq_st_ok_iff.mp h
  obtain ⟨-, h⟩ := seq_st_ok_iff.mp h
  obtain ⟨hout, -⟩ := seq_st_ok_iff.mp h
  rw [seq_evs_of_ok rfl,
    seq_evs_of_ok (emitEachIdx_st_ok (fun i x => rfl) 0 _),
    seq_evs_of_ok hout,
    seq_evs_of_ok (crawl_tx_certs_st w _),
    seq_evs_of_ok (crawl_tx_collateral_st w _),
    seq_evs_of_ok (crawl_tx_mint_st w _),
    seq_evs_of_ok (crawl_tx_aux_st w _),
    seq_evs_of_ok (crawl_tx_ws_st w _)]
  have hin := emitEachIdx_kinds (g := fun _ => [EKind.txInput])
    (f := fun idx input =>
      crawl_transaction_input
        (child_writer w { emptyContext with input_idx := some idx }) input)
    (fun i x _ => rfl) 0 tx.value.inputs (emitEachIdx_st_ok (fun i x => rfl) 0 _)
  rw [flatMap_const_single] at hin
  have houtk := emitEachIdx_kinds (g := claimOutputKinds false)
    (f := fun idx output =>
      crawl_babbage_transaction_output
        (child_writer w { emptyContext with output_idx := some idx }) output)
    (fun i x hx => crawl_output_kinds _ x hx) 0 tx.value.outputs hout
  unfold claimTxKinds
  simp only [List.map_append, hin, houtk, crawl_tx_certs_kinds, crawl_tx_collateral_kinds,
    crawl_tx_mint_kinds, crawl_tx_aux_kinds, crawl_tx_ws_kinds, crawl_tx_end_kinds]
  simp [emit1, mkEvent, Event.kind, EventData.kind, List.append_assoc]

theorem crawl_block_tx_kinds (w : EventWriter) (block : Ledger.MintedBlockB)
    (idx : Nat) (tx : Ledger.KeepRaw Ledger.TransactionBodyB)
    (h : (crawl_block_tx w block idx tx).st = .ok) :
    (crawl_block_tx w block idx tx).evs.map Event.kind
      = claimTxKinds w.config false tx (auxForB block idx)
          (block.transaction_witness_sets.get? idx) :=
  crawl_tx_kinds _ tx _ _ _ h

theorem crawl_block_txs_kinds (w : EventWriter) (block : Ledger.MintedBlockB) :
    ∀ (idx : Nat) (txs : List (Ledger.KeepRaw Ledger.TransactionBodyB)),
      (emitEachIdx (crawl_block_tx w block) idx txs).st = .ok →
      (emitEachIdx (crawl_block_tx w block) idx txs).evs.map Event.kind
        = claimTxsKinds w.config false block idx txs := by
  intro idx txs
  induction txs generalizing idx with
  | nil => intro _; rfl
  | cons tx rest ih =>
    intro h
    obtain ⟨h1, h2⟩ := seq_st_ok_iff.mp h
    show ((Emit.seq _ _).evs).map Event.kind = _
    rw [seq_evs_of_ok h1, List.map_append, crawl_block_tx_kinds w block idx tx h1,
      ih (idx + 1) h2]
    rfl

/-- C3 (amended): when the crawl of a Babbage block succeeds, the emitted
event sequence is exactly: one Block event; then, per transaction in order,
one Transaction event followed by its TxInput events in input order, its
output groups in output order — each a TxOutput event, then the output's
OutputAsset events in asset order, then (for an inline-datum output) its
PlutusDatum event —, one certificate event per certificate, Collateral
events, Mint events, Metadata then aux-script events when auxiliary data is
present, witness events in witness-set order (native, plutus, redeemer,
datum), and a TransactionEnd event when that switch is on; then a BlockEnd
event when that switch is on.  The spec's sentence putting the output's
Datum child before its OutputAsset children does not hold; the asset
children come first. -/
theorem crawl_emission_order (w : EventWriter) (block : Ledger.MintedBlockB)
    (hash : List Nat) (cbor : List Nat)
    (h : (crawl_babbage_block w block hash cbor).st = .ok) :
    (crawl_babbage_block w block hash cbor).evs.map Event.kind
      = claimBlockKinds w.config false block := by
  unfold crawl_babbage_block at h ⊢
  obtain ⟨record, hrec, h⟩ := bindR_st_ok h
  simp only [hrec, bindR_ok] at h ⊢
  obtain ⟨-, h⟩ := seq_st_ok_iff.mp h
  obtain ⟨htxs, -⟩ := seq_st_ok_iff.mp h
  rw [seq_evs_of_ok rfl, seq_evs_of_ok htxs]
  unfold claimBlockKinds
  simp only [List.map_append, crawl_block_txs_kinds w block 0 _ htxs]
  cases hb : w.config.include_block_end_events <;>
    simp [hb, emit1, pureE, mkEvent, Event.kind, EventData.kind]

/-- C5: at a transaction whose collateral section holds two inputs the code
sets collateral_input_count to 1 — iterating the Option counts the section,
not its elements — while the body carries 2 collateral inputs. -/
theorem collateral_input_count_miscount :
    (recOfR (to_babbage_transaction_record writer0 txTwoCollateral "aa" none none)).collateral_input_count
        = 1
    ∧ (txTwoCollateral.value.collateral.getD []).length = 2 :=
  ⟨rfl, rfl⟩

/-! ### A concrete block exercising the output-child order -/

def pdC3 : Ledger.KeepRaw Ledger.PlutusData where
  value := { json := .num 1 }
  raw_cbor := [1]
  original_hash := [2]

/-- A post-alonzo output carrying one multi-asset entry and an inline datum. -/
def paOutC3 : Ledger.PostAlonzoOutput where
  address := [1, 2]
  value := .multiasset 5 [([170], [([1], 7)])]
  datum_option := some (.data pdC3)
  script_ref := none

def txC3 : Ledger.KeepRaw Ledger.TransactionBodyB where
  value := { emptyBodyB with outputs := [.postAlonzo paOutC3] }
  raw_cbor := [0]
  original_hash := [171]

def blockC3 : Ledger.MintedBlockB where
  header := hdr0
  transaction_bodies := [txC3]
  transaction_witness_sets := []
  auxiliary_data_set := []

def writerC3 : EventWriter where
  context := emptyContext
  config := cfgAllOn
  env := envOkAddr

/-- C3 counterexample: at a block whose only transaction has one
post-alonzo output carrying both an asset entry and an inline datum, the
crawl succeeds but emits the output's OutputAsset child before its
PlutusDatum child — the datum-first order stated by the spec does not
match, while the assets-first order does. -/
theorem crawl_emission_order_counterexample :
    (crawl_babbage_block writerC3 blockC3 [9] [9]).st = .ok
    ∧ (crawl_babbage_block writerC3 blockC3 [9] [9]).evs.map Event.kind
        ≠ claimBlockKinds writerC3.config true blockC3
    ∧ (crawl_babbage_block writerC3 blockC3 [9] [9]).evs.map Event.kind
        = claimBlockKinds writerC3.config false blockC3 := by
  refine ⟨rfl, ?_, rfl⟩
  decide

/-- Witness for C3 at the concrete block: the crawl succeeds there, so the
amended order theorem applies. -/
theorem crawl_emission_order_witness :
    (crawl_babbage_block writerC3 blockC3 [9] [9]).st = .ok
    ∧ (crawl_babbage_block writerC3 blockC3 [9] [9]).evs.map Event.kind
        = claimBlockKinds writerC3.config false blockC3 :=
  ⟨rfl, crawl_emission_order writerC3 blockC3 [9] [9] rfl⟩

end Oura
